import Mathlib

/-! Chalk module subsystem (`apps/ck/lib/module.c`).

A shallow embedding of the module loader, the module constructors and the
module primitives `run`, `get` and `__str`, followed by the properties
established about them.

Conventions of the embedding.

* Pointers are `Option Nat`: `none` is `NULL`, `some a` is the address `a`.
  Module objects live in `CkVm.Heap` and fibers in `CkVm.Fibers`, both indexed
  by address, so that "the identical module" means "the same address".
* Code that dereferences `NULL` or a dangling address, performs a cast the
  value does not support, or fails a `CK_ASSERT`, yields `CkOutcome.fault`
  together with the state reached at that point.
* The collaborators that are not part of `module.c` (allocator, dictionary,
  compiler, closure and fiber constructors, error reporting, host callbacks)
  are modelled at the boundary `module.c` uses.  The allocations whose outcome
  `module.c` tests or stores as a pointer consult the script `CkVm.Memory`, so
  all patterns of such failures are covered; the dictionary, the define
  operation, error reporting and string formatting, whose outcome `module.c`
  never inspects, are taken to succeed.
  Calls that leave the subsystem are recorded in traces kept in the state
  (`LoadRequests`, `CompileRequests`, `Unloaded`, `Raised`, `Called`).
  The record of a call through `CkpCallFunction` holds the module objects as
  the callee finds them.
* String objects carry their length and may hold NUL characters.  Where
  `module.c` passes `String->Value` to a routine that takes a C string, the
  routine receives `CkCString` of the text: the characters before the first
  NUL.
* Host buffers handed over by the load callback and released with `CkFree`
  have no representation: the embedding has no raw memory.
-/

namespace Chalk

/-! ## Data model -/

/-- Modelled from the spec: `CK_VALUE` is declared in `chalkp.h`, which is not
part of the sources.  Only the kinds of value that `module.c` distinguishes are
kept.  `object p` is a value of type object whose pointer is `p`; strings are
compared by content, as dictionary keys are. -/
inductive CkValue where
  | undefined
  | null
  | integer (Value : Int)
  | string (Value : String)
  | object (Pointer : Option Nat)
  | exception (ErrorType : String) (Message : String)
  deriving DecidableEq

/-- Modelled from the spec: `CK_CLOSURE` (declared in `chalkp.h`).  A closure
either wraps a compiled function (`CkpClosureCreate`) or a native entry point
together with its module, name and arity (`CkpClosureCreateForeign`). -/
inductive CkClosure where
  | block (Function : Nat)
  | foreign (EntryPoint : Nat) (Module : Nat) (Name : Option String) (Arity : Nat)
  deriving DecidableEq

/-- Modelled from the spec: `CK_FIBER` (declared in `chalkp.h`), restricted to
the fields `module.c` reads or writes.  `FrameCount` is the length of
`Frames`. -/
structure CkFiber where
  Frames : List CkClosure
  Error : CkValue
  Caller : Option Nat
  deriving DecidableEq

/-- Value of the field `Fiber->FrameCount`. -/
def CkFiber.FrameCount (Fiber : CkFiber) : Nat :=
  Fiber.Frames.length

/-- Modelled from the spec: `CK_MODULE` (declared in `chalkp.h`).  `Variables`
joins the arrays `VariableNames` and `Variables` index by index: entry `i` is
the name and the value of variable `i`. -/
structure CkModule where
  Name : Option String
  Path : Option String
  Variables : List (String × CkValue)
  Strings : List String
  Fiber : Option Nat
  EntryFunction : Option CkClosure
  Handle : Option Nat
  deriving DecidableEq

/-- A call made through `CkpCallFunction`, as the callee finds it: the closure
called, the arity, the arguments, and the module objects of the machine at the
moment of the call. -/
structure CkCall where
  Closure : CkClosure
  Arity : Nat
  Arguments : List CkValue
  Heap : List CkModule
  deriving DecidableEq

/-- Modelled from the spec: `CK_VM` (declared in `chalkp.h`).  `Modules` is the
registry dictionary `Vm->Modules`, from name values to module addresses;
`Fiber` is `Vm->Fiber`.  `Memory` scripts the allocator: each allocation
consumes one entry, `false` meaning the allocation fails, and an exhausted
script grants every request.  The remaining fields are traces of the calls
that leave the subsystem. -/
structure CkVm where
  Modules : List (CkValue × Nat)
  Heap : List CkModule
  Fibers : List CkFiber
  Fiber : Option Nat
  Memory : List Bool
  LoadRequests : List String
  CompileRequests : List (Nat × String)
  Unloaded : List Nat
  Raised : List (String × String)
  Called : List CkCall
  deriving DecidableEq

/-- Modelled from the spec: `CK_LOAD_MODULE_RESULT` together with the payload
the host stores in `CK_MODULE_HANDLE` (both declared in the public header,
which is not part of the sources).  `PathLength` is the length of `Path`, so an
absent path is the empty string; `unknown` stands for every tag outside the
enumeration. -/
inductive CkLoadModuleResult where
  | CkLoadModuleSource (Path : String) (Text : String)
  | CkLoadModuleForeign (Path : String) (Handle : Option Nat) (Entry : Nat)
  | CkLoadModuleNotFound
  | CkLoadModuleNoMemory
  | CkLoadModuleNotSupported
  | CkLoadModuleStaticError (Error : String)
  | CkLoadModuleFreeError (Error : String)
  | unknown (Tag : Nat)
  deriving DecidableEq

/-- Modelled from the spec: the part of `Vm->Configuration` used by `module.c`.
The load callback sees the machine and the requested name; it is kept outside
`CkVm` because it takes the machine as an argument.  `UnloadForeignModule`
tells whether the unload callback is configured (non-`NULL`); its invocations
are recorded in `CkVm.Unloaded`. -/
structure CkConfiguration where
  LoadModule : Option (CkVm → String → CkLoadModuleResult)
  UnloadForeignModule : Bool

/-- Modelled from the spec: what surrounds the machine: its configuration and
the bytecode compiler, which given the machine, the module under compilation
and the source text yields a function or rejects the text. -/
structure CkEnvironment where
  Configuration : CkConfiguration
  Compile : CkVm → Nat → String → Option Nat

/-- Ways in which the C code leaves defined behaviour. -/
inductive CkFault where
  | assertion
  | invalidPointer
  | badCast
  deriving DecidableEq

/-- Result of a routine that may fault: the value returned (or the fault) and
the machine state reached. -/
inductive CkOutcome (α : Type) where
  | ok (Value : α) (Vm : CkVm)
  | fault (Fault : CkFault) (Vm : CkVm)

/-- Machine state in which a routine ended. -/
def CkOutcome.finalVm {α : Type} : CkOutcome α → CkVm
  | .ok _ Vm => Vm
  | .fault _ Vm => Vm

/-- How a `switch` arm is left: by `return` with a value or by `break`, in
which case the local `Module` carries on to the code after the switch. -/
inductive CkSwitchExit where
  | returned (Value : CkValue)
  | broke (Module : Option Nat)

/-! ## Value macros -/

/-- Modelled from the spec: `CkNullValue` / `CK_NULL_VALUE`. -/
def CkNullValue : CkValue := .null

/-- Modelled from the spec: `CK_OBJECT_VALUE(Value, Object)` builds the object
value pointing at `Object`, whatever the pointer is. -/
def CK_OBJECT_VALUE (Object : Option Nat) : CkValue := .object Object

/-- Modelled from the spec: `CK_OBJECT_VALUE` applied to a string pointer. -/
def CK_STRING_VALUE (Name : Option String) : CkValue :=
  match Name with
  | some Value => .string Value
  | none => .object none

/-- Modelled from the spec: `CK_IS_NULL`. -/
def CK_IS_NULL (Value : CkValue) : Bool :=
  match Value with
  | .null => true
  | _ => false

/-- Modelled from the spec: `CK_IS_UNDEFINED`. -/
def CK_IS_UNDEFINED (Value : CkValue) : Bool :=
  match Value with
  | .undefined => true
  | _ => false

/-- Modelled from the spec: `CK_IS_STRING`. -/
def CK_IS_STRING (Value : CkValue) : Bool :=
  match Value with
  | .string _ => true
  | _ => false

/-- Modelled from the spec: `CK_AS_STRING`, the string a string value points
at; `none` when the value is not a string. -/
def CK_AS_STRING (Value : CkValue) : Option String :=
  match Value with
  | .string Text => some Text
  | _ => none

/-- Modelled from the spec: `CK_AS_MODULE`, the module pointer held by an
object value. -/
def CK_AS_MODULE (Value : CkValue) : Option Nat :=
  match Value with
  | .object Pointer => Pointer
  | _ => none

/-- The text of a string object read through `->Value` as a C string: the
characters before the first NUL character.  String objects carry their length
and may hold NUL characters; a `PCSTR` ends at the first one. -/
def CkCString (Text : String) : String :=
  String.mk (Text.data.takeWhile (fun Character => decide (Character ≠ Char.ofNat 0)))

/-- Modelled from the spec: `CK_MODULE_ENTRY_NAME`, the fixed twelve character
name given to the entry closure of a foreign module. -/
def CK_MODULE_ENTRY_NAME : String := "CkModuleInit"

/-! ## Collaborators outside `module.c` -/

/-- Modelled from the spec: `CkAllocate`.  Consumes one entry of the allocator
script and tells whether memory was granted. -/
def CkAllocate (Vm : CkVm) : Bool × CkVm :=
  match Vm.Memory with
  | [] => (true, Vm)
  | Granted :: Rest => (Granted, { Vm with Memory := Rest })

/-- Modelled from the spec: `CkpStringCreate`, the string value for the given
text, or the null value when the allocation fails. -/
def CkpStringCreate (Vm : CkVm) (Text : String) : CkValue × CkVm :=
  match CkAllocate Vm with
  | (true, Vm1) => (.string Text, Vm1)
  | (false, Vm1) => (CkNullValue, Vm1)

/-- Modelled from the spec: `CkpStringTableInitialize`; `true` is
`CkSuccess`. -/
def CkpStringTableInitialize (Vm : CkVm) : Bool × CkVm :=
  CkAllocate Vm

/-- Modelled from the spec: `CkpDictGet`, the value stored under a key, or
undefined. -/
def CkpDictGet : List (CkValue × Nat) → CkValue → CkValue
  | [], _ => .undefined
  | (Key1, Module) :: Rest, Key =>
    if Key1 = Key then CK_OBJECT_VALUE (some Module) else CkpDictGet Rest Key

/-- Modelled from the spec: `CkpDictSet`, which binds the key to the value,
replacing an earlier binding of the same key. -/
def CkpDictSet : List (CkValue × Nat) → CkValue → Nat → List (CkValue × Nat)
  | [], Key, Module => [(Key, Module)]
  | (Key1, Module1) :: Rest, Key, Module =>
    if Key1 = Key then (Key1, Module) :: Rest
    else (Key1, Module1) :: CkpDictSet Rest Key Module

/-- Write through a module pointer: `Module->... = ...`. -/
def CkVm.storeModule (Vm : CkVm) (Module : Nat) (Update : CkModule → CkModule) : Option CkVm :=
  match Vm.Heap[Module]? with
  | none => none
  | some Object => some { Vm with Heap := Vm.Heap.set Module (Update Object) }

/-- Write through a fiber pointer: `Fiber->... = ...`. -/
def CkVm.storeFiber (Vm : CkVm) (Fiber : Nat) (Update : CkFiber → CkFiber) : Option CkVm :=
  match Vm.Fibers[Fiber]? with
  | none => none
  | some Object => some { Vm with Fibers := Vm.Fibers.set Fiber (Update Object) }

/-- Modelled from the spec: `CkpRuntimeError`, which reports a script-visible
error of the given type and message: the report is recorded and becomes the
pending error of the running fiber, when there is one. -/
def CkpRuntimeError (Vm : CkVm) (ErrorType Message : String) : CkVm :=
  let Vm1 := { Vm with Raised := Vm.Raised ++ [(ErrorType, Message)] }
  match Vm1.Fiber with
  | none => Vm1
  | some Fiber =>
    match Vm1.storeFiber Fiber (fun Object => { Object with Error := .exception ErrorType Message }) with
    | none => Vm1
    | some Vm2 => Vm2

/-- Modelled from the spec: the define operation `CkpDefineModuleVariable`: a
later definition overwrites an earlier one by name, a new name is appended. -/
def CkpDefineVariable : List (String × CkValue) → String → CkValue → List (String × CkValue)
  | [], Name, Value => [(Name, Value)]
  | (Name1, Value1) :: Rest, Name, Value =>
    if Name1 = Name then (Name1, Value) :: Rest
    else (Name1, Value1) :: CkpDefineVariable Rest Name Value

/-- Modelled from the spec: `CkpDefineModuleVariable` on a module of the
heap. -/
def CkpDefineModuleVariable (Vm : CkVm) (Module : Nat) (Name : String) (Value : CkValue) : CkVm :=
  match Vm.storeModule Module
      (fun Object => { Object with Variables := CkpDefineVariable Object.Variables Name Value }) with
  | none => Vm
  | some Vm1 => Vm1

/-- Namespace obtained from `Start` by defining in it, in order, every
variable of `Core`: the effect of the seeding loop of `CkpModuleCreate`. -/
def CkSeedVariables (Start Core : List (String × CkValue)) : List (String × CkValue) :=
  Core.foldl (fun Defined Variable => CkpDefineVariable Defined Variable.1 Variable.2) Start

/-- Modelled from the spec: `CkpCompile`.  The request is recorded and the
compiler of the environment decides; what the compiler itself writes into the
module under compilation is outside this subsystem. -/
def CkpCompile (Env : CkEnvironment) (Vm : CkVm) (Module : Nat) (Source : String) : Option Nat × CkVm :=
  (Env.Compile Vm Module Source,
    { Vm with CompileRequests := Vm.CompileRequests ++ [(Module, Source)] })

/-- Modelled from the spec: `CkpClosureCreate`, the closure of a compiled
function, or `NULL` when the allocation fails. -/
def CkpClosureCreate (Vm : CkVm) (Function : Nat) : Option CkClosure × CkVm :=
  match CkAllocate Vm with
  | (true, Vm1) => (some (.block Function), Vm1)
  | (false, Vm1) => (none, Vm1)

/-- Modelled from the spec: `CkpClosureCreateForeign`, the closure of a native
entry point, or `NULL` when the allocation fails. -/
def CkpClosureCreateForeign (Vm : CkVm) (EntryPoint : Nat) (Module : Nat)
    (Name : Option String) (Arity : Nat) : Option CkClosure × CkVm :=
  match CkAllocate Vm with
  | (true, Vm1) => (some (.foreign EntryPoint Module Name Arity), Vm1)
  | (false, Vm1) => (none, Vm1)

/-- Modelled from the spec: `CkpFiberCreate`, a suspended coroutine prepared to
run the closure (one frame, no pending error, no caller), or `NULL` when the
allocation fails. -/
def CkpFiberCreate (Vm : CkVm) (Closure : CkClosure) : Option Nat × CkVm :=
  match CkAllocate Vm with
  | (true, Vm1) =>
    (some Vm1.Fibers.length,
      { Vm1 with Fibers := Vm1.Fibers ++ [{ Frames := [Closure], Error := CkNullValue, Caller := none }] })
  | (false, Vm1) => (none, Vm1)

/-- Modelled from the spec: `CkpCallFunction`, a direct call of the closure
with the top `Arity` values of the stack as its arguments.  The call is
recorded together with the module objects as they are when the callee is
entered; the body of the callee is outside this subsystem. -/
def CkpCallFunction (Vm : CkVm) (Closure : CkClosure) (Arity : Nat) (Arguments : List CkValue) : CkVm :=
  { Vm with Called := Vm.Called ++
      [{ Closure := Closure, Arity := Arity, Arguments := Arguments.take Arity, Heap := Vm.Heap }] }

/-- Invocation of the host callback `Vm->Configuration.UnloadForeignModule`. -/
def CkUnloadForeignModule (Vm : CkVm) (Handle : Nat) : CkVm :=
  { Vm with Unloaded := Vm.Unloaded ++ [Handle] }

/-! ## The routines of `module.c` -/

/-- The routine `CkpModuleGet`: the module registered under the name, or
`NULL`. -/
def CkpModuleGet (Vm : CkVm) (Name : CkValue) : Option Nat :=
  let Module := CkpDictGet Vm.Modules Name
  if CK_IS_UNDEFINED Module then none else CK_AS_MODULE Module

/-- The module object after `CkZero` and the stores `Module->Name = Name` and
`Module->Path = Path` of `CkpModuleAllocate`: empty tables, no fiber, no entry
function, no handle. -/
def CkZeroModule (Name Path : Option String) : CkModule where
  Name := Name
  Path := Path
  Variables := []
  Strings := []
  Fiber := none
  EntryFunction := none
  Handle := none

/-- The routine `CkpModuleAllocate`: allocates a zeroed module object carrying
the name and the path, then initialises its two string tables; `NULL` when any
of the three allocations fails. -/
def CkpModuleAllocate (Vm : CkVm) (Name Path : Option String) : Option Nat × CkVm :=
  match CkAllocate Vm with
  | (false, Vm1) => (none, Vm1)
  | (true, Vm1) =>
    let Module := Vm1.Heap.length
    let Vm2 := { Vm1 with Heap := Vm1.Heap ++ [CkZeroModule Name Path] }
    match CkpStringTableInitialize Vm2 with
    | (false, Vm3) => (none, Vm3)
    | (true, Vm3) =>
      match CkpStringTableInitialize Vm3 with
      | (false, Vm4) => (none, Vm4)
      | (true, Vm4) => (some Module, Vm4)

/-- The routine `CkpModuleCreate`: allocates the module, registers it under
its name, then defines in it every variable of the core module, in the order
of the core module.  The core module is looked up after the registration, as
in the C code.  The loop over `Index` is a fold over the variables of the core
module read once: the loop writes to the new module only, and should the new
module be the core module itself it has no variable and the loop does not
run. -/
def CkpModuleCreate (Vm : CkVm) (Name Path : Option String) : CkOutcome (Option Nat) :=
  match CkpModuleAllocate Vm Name Path with
  | (none, Vm1) => .ok none Vm1
  | (some Module, Vm1) =>
    let NameValue := CK_STRING_VALUE Name
    let Vm2 := { Vm1 with Modules := CkpDictSet Vm1.Modules NameValue Module }
    match CkpModuleGet Vm2 CkNullValue with
    | none => .fault .invalidPointer Vm2
    | some CoreModule =>
      match Vm2.Heap[CoreModule]? with
      | none => .fault .invalidPointer Vm2
      | some Core =>
        .ok (some Module)
          (Core.Variables.foldl
            (fun Vm3 Variable => CkpDefineModuleVariable Vm3 Module Variable.1 Variable.2) Vm2)

/-- Second half of `CkpModuleLoadSource`, from the call of `CkpCompile` to
the end: compiles the source in the module, wraps the function in a closure
and the closure in a fiber, which is stored in `Module->Fiber`. -/
def CkpModuleLoadSourceCompile (Env : CkEnvironment) (Vm : CkVm) (Module : Nat)
    (Source : String) : CkOutcome (Option Nat) :=
  match CkpCompile Env Vm Module Source with
  | (none, Vm1) => .ok none Vm1
  | (some Function, Vm1) =>
    match CkpClosureCreate Vm1 Function with
    | (none, Vm2) => .ok none Vm2
    | (some Closure, Vm2) =>
      match CkpFiberCreate Vm2 Closure with
      | (Fiber, Vm3) =>
        match Vm3.storeModule Module (fun Object => { Object with Fiber := Fiber }) with
        | none => .fault .invalidPointer Vm3
        | some Vm4 => .ok (some Module) Vm4

/-- The routine `CkpModuleLoadSource`: the module registered under the name
is reused, otherwise one is created; then the source is compiled in it. -/
def CkpModuleLoadSource (Env : CkEnvironment) (Vm : CkVm) (ModuleName Path : CkValue)
    (Source : String) : CkOutcome (Option Nat) :=
  let PathString := if CK_IS_STRING Path then CK_AS_STRING Path else none
  match CkpModuleGet Vm ModuleName with
  | some Module => CkpModuleLoadSourceCompile Env Vm Module Source
  | none =>
    match CK_AS_STRING ModuleName with
    | none => .fault .badCast Vm
    | some Name =>
      match CkpModuleCreate Vm (some Name) PathString with
      | .fault Fault Vm1 => .fault Fault Vm1
      | .ok none Vm1 => .ok none Vm1
      | .ok (some Module) Vm1 => CkpModuleLoadSourceCompile Env Vm1 Module Source

/-- The routine `CkpModuleLoadForeign`.  The parameter `Handle` is received
and, as in the C code, used nowhere in the body. -/
def CkpModuleLoadForeign (Vm : CkVm) (ModuleName Path : CkValue) (_Handle : Option Nat)
    (EntryPoint : Nat) : CkOutcome (Option Nat) :=
  let PathString := if CK_IS_STRING Path then CK_AS_STRING Path else none
  match CkpModuleGet Vm ModuleName with
  | some _ => .fault .assertion Vm
  | none =>
    match CK_AS_STRING ModuleName with
    | none => .fault .badCast Vm
    | some Name =>
      match CkpModuleCreate Vm (some Name) PathString with
      | .fault Fault Vm1 => .fault Fault Vm1
      | .ok none Vm1 => .ok none Vm1
      | .ok (some Module) Vm1 =>
        match CkpStringCreate Vm1 CK_MODULE_ENTRY_NAME with
        | (FunctionNameValue, Vm2) =>
          let FunctionName :=
            if !CK_IS_NULL FunctionNameValue then CK_AS_STRING FunctionNameValue else none
          match CkpClosureCreateForeign Vm2 EntryPoint Module FunctionName 0 with
          | (none, Vm3) => .ok none Vm3
          | (some Closure, Vm3) =>
            match Vm3.storeModule Module (fun Object => { Object with EntryFunction := some Closure }) with
            | none => .fault .invalidPointer Vm3
            | some Vm4 => .ok (some Module) Vm4

/-- The statement `if (PathLength != 0) PathValue = CkpStringCreate(...)` of
`CkpModuleLoad`, starting from `PathValue = CkNullValue`. -/
def CkpModuleLoadPath (Vm : CkVm) (Path : String) : CkValue × CkVm :=
  if Path.length ≠ 0 then CkpStringCreate Vm Path else (CkNullValue, Vm)

/-- The block `if (Module == NULL)` of the `Foreign` arm of `CkpModuleLoad`,
entered when module creation failed: the library is unloaded when its handle
is not `NULL` and the unload callback is configured. -/
def CkpModuleLoadForeignFailed (Env : CkEnvironment) (Vm : CkVm) (Handle : Option Nat) : CkVm :=
  match Handle with
  | some Library =>
    if Env.Configuration.UnloadForeignModule then CkUnloadForeignModule Vm Library else Vm
  | none => Vm

/-- The `switch (LoadStatus)` of `CkpModuleLoad`, entered with `Module == NULL`
after the host callback has answered. -/
def CkpModuleLoadSwitch (Env : CkEnvironment) (Vm : CkVm) (ModuleName : CkValue)
    (NameString : String) (LoadStatus : CkLoadModuleResult) : CkOutcome CkSwitchExit :=
  match LoadStatus with
  | .CkLoadModuleSource Path Text =>
    match CkpModuleLoadPath Vm Path with
    | (PathValue, Vm1) =>
      match CkpModuleLoadSource Env Vm1 ModuleName PathValue Text with
      | .fault Fault Vm2 => .fault Fault Vm2
      | .ok none Vm2 =>
        .ok (.returned CkNullValue)
          (CkpRuntimeError Vm2 "CompileError" ("Module compile error: " ++ CkCString NameString))
      | .ok (some Module) Vm2 => .ok (.broke (some Module)) Vm2
  | .CkLoadModuleForeign Path Handle Entry =>
    match CkpModuleLoadPath Vm Path with
    | (PathValue, Vm1) =>
      match CkpModuleLoadForeign Vm1 ModuleName PathValue Handle Entry with
      | .fault Fault Vm2 => .fault Fault Vm2
      | .ok none Vm2 => .ok (.broke none) (CkpModuleLoadForeignFailed Env Vm2 Handle)
      | .ok (some Module) Vm2 => .ok (.broke (some Module)) Vm2
  | .CkLoadModuleNotFound =>
    .ok (.returned CkNullValue) (CkpRuntimeError Vm "ImportError" "Module not found")
  | .CkLoadModuleNoMemory =>
    match Vm.Fiber with
    | none => .fault .invalidPointer Vm
    | some Current =>
      match Vm.Fibers[Current]? with
      | none => .fault .invalidPointer Vm
      | some Fiber =>
        if !CK_IS_NULL Fiber.Error then
          .ok (.returned CkNullValue) (CkpRuntimeError Vm "MemoryError" "Allocation failure")
        else .ok (.returned CkNullValue) Vm
  | .CkLoadModuleNotSupported =>
    .ok (.broke none) (CkpRuntimeError Vm "ImportError" "Module loading not supported")
  | .CkLoadModuleStaticError Error =>
    .ok (.broke none) (CkpRuntimeError Vm "ImportError" Error)
  | .CkLoadModuleFreeError Error =>
    .ok (.broke none) (CkpRuntimeError Vm "ImportError" Error)
  | .unknown _ =>
    .ok (.returned CkNullValue) (CkpRuntimeError Vm "ImportError" "Unknown module load error")

/-- The routine `CkpModuleLoad`.  The host callback is consulted on the state
in which it is called and the request is recorded.  The callback is handed the
text of the name; a callback that reads it as a C string, as in C, is one of
the callbacks of the embedding. -/
def CkpModuleLoad (Env : CkEnvironment) (Vm : CkVm) (ModuleName : CkValue) : CkOutcome CkValue :=
  match CK_AS_STRING ModuleName with
  | none => .fault .assertion Vm
  | some NameString =>
    match CkpModuleGet Vm ModuleName with
    | some Module => .ok (CK_OBJECT_VALUE (some Module)) Vm
    | none =>
      match Env.Configuration.LoadModule with
      | none => .ok CkNullValue (CkpRuntimeError Vm "ImportError" "Module load not supported")
      | some LoadModule =>
        let LoadStatus := LoadModule Vm NameString
        let Vm1 := { Vm with LoadRequests := Vm.LoadRequests ++ [NameString] }
        match CkpModuleLoadSwitch Env Vm1 ModuleName NameString LoadStatus with
        | .fault Fault Vm2 => .fault Fault Vm2
        | .ok (.returned Value) Vm2 => .ok Value Vm2
        | .ok (.broke Module) Vm2 => .ok (CK_OBJECT_VALUE Module) Vm2

/-- The call of `CkpModuleCreate` made by a `CkpModuleLoad` of a name that is
not registered, once the host has answered `Source` or `Foreign` with the
given path: the request is recorded, the path string is built, and the source
or the foreign path, finding the name unregistered, creates the module.  The
state of an `ok` outcome is the state in which the path goes on: with the
call of the compiler, or with the construction of the entry closure. -/
def CkpModuleLoadCreate (Vm : CkVm) (Name Path : String) : CkOutcome (Option Nat) :=
  match CkpModuleLoadPath { Vm with LoadRequests := Vm.LoadRequests ++ [Name] } Path with
  | (PathValue, Vm1) => CkpModuleCreate Vm1 (some Name) (CK_AS_STRING PathValue)

/-- The name given to the entry closure by `CkpModuleLoadForeign` in the
state reached by `CkpModuleCreate`: the string built from
`CK_MODULE_ENTRY_NAME`, or `NULL` when that string could not be built. -/
def CkpModuleLoadForeignName (Vm : CkVm) : Option String :=
  if !CK_IS_NULL (CkpStringCreate Vm CK_MODULE_ENTRY_NAME).1 then
    CK_AS_STRING (CkpStringCreate Vm CK_MODULE_ENTRY_NAME).1
  else none

/-- The routine `CkpModuleDestroy`. -/
def CkpModuleDestroy (Env : CkEnvironment) (Vm : CkVm) (Module : Nat) : CkOutcome Unit :=
  match Vm.Heap[Module]? with
  | none => .fault .invalidPointer Vm
  | some Object =>
    match Object.Handle with
    | some Handle =>
      let Vm1 := if Env.Configuration.UnloadForeignModule then CkUnloadForeignModule Vm Handle else Vm
      match Vm1.storeModule Module (fun Dying => { Dying with Handle := none }) with
      | none => .fault .invalidPointer Vm1
      | some Vm2 => .ok () Vm2
    | none => .ok () Vm

/-- The primitive `CkpModuleRun`.  The result is the `BOOL` returned and the
argument array after the call. -/
def CkpModuleRun (Vm : CkVm) (Arguments : List CkValue) : CkOutcome (Bool × List CkValue) :=
  match Arguments.head? with
  | some (.object (some Module)) =>
    match Vm.Heap[Module]? with
    | none => .fault .invalidPointer Vm
    | some Object =>
      match Object.Fiber with
      | none =>
        match Object.EntryFunction with
        | some EntryFunction =>
          match Vm.storeModule Module (fun Running => { Running with EntryFunction := none }) with
          | none => .fault .invalidPointer Vm
          | some Vm1 => .ok (true, Arguments) (CkpCallFunction Vm1 EntryFunction 1 Arguments)
        | none => .ok (true, Arguments.set 0 CkNullValue) Vm
      | some Fiber =>
        match Vm.Fibers[Fiber]? with
        | none => .fault .invalidPointer Vm
        | some Coroutine =>
          if Coroutine.FrameCount ≠ 0 ∧ CK_IS_NULL Coroutine.Error = true then
            match Vm.storeModule Module (fun Running => { Running with Fiber := none }) with
            | none => .fault .invalidPointer Vm
            | some Vm1 =>
              match Vm1.storeFiber Fiber (fun Switched => { Switched with Caller := Vm1.Fiber }) with
              | none => .fault .invalidPointer Vm1
              | some Vm2 => .ok (false, Arguments) { Vm2 with Fiber := some Fiber }
          else .fault .assertion Vm
  | some (.object none) => .fault .invalidPointer Vm
  | _ => .fault .badCast Vm

/-- Modelled from the spec: `CkpFindModuleVariable` called with `Create` set
to `FALSE`: the slot bound to the name in the namespace of the module itself,
or `NULL` when the module has no such variable.  The result is the content of
the slot. -/
def CkpFindModuleVariable (Object : CkModule) (Name : String) : Option CkValue :=
  match Object.Variables.find? (fun Variable => decide (Variable.1 = Name)) with
  | some Variable => some Variable.2
  | none => none

/-- Substitution of the arguments, in order, for the `$` marks of a format. -/
def CkFormatChars : List Char → List String → List Char
  | [], _ => []
  | Mark :: Rest, Arguments =>
    if Mark = '$' then
      match Arguments with
      | Argument :: More => Argument.data ++ CkFormatChars Rest More
      | [] => CkFormatChars Rest []
    else Mark :: CkFormatChars Rest Arguments

/-- Modelled from the spec: `CkpStringFormat`, the string value whose text is
the format with each `$` replaced by the next C string argument. -/
def CkpStringFormat (Format : String) (Arguments : List String) : CkValue :=
  .string (String.mk (CkFormatChars Format.data Arguments))

/-- The primitive `CkpModuleGetVariable` (`get@1`).  The argument is tested
before the module pointer is used.  The name looked up is `Name->Value`, a C
string, and so are the two names in the message of the `NameError`; the
message reads `Module->Name->Value`, which needs the module to have a name. -/
def CkpModuleGetVariable (Vm : CkVm) (Arguments : List CkValue) : CkOutcome (Bool × List CkValue) :=
  match Arguments[1]? with
  | none => .fault .invalidPointer Vm
  | some NameValue =>
    match CK_AS_STRING NameValue with
    | none => .ok (false, Arguments) (CkpRuntimeError Vm "TypeError" "Expected a string")
    | some Name =>
      match Arguments.head? with
      | some (.object (some Module)) =>
        match Vm.Heap[Module]? with
        | none => .fault .invalidPointer Vm
        | some Object =>
          match CkpFindModuleVariable Object (CkCString Name) with
          | none =>
            match Object.Name with
            | none => .fault .invalidPointer Vm
            | some ModuleName =>
              .ok (false, Arguments)
                (CkpRuntimeError Vm "NameError"
                  ("No such variable '" ++ CkCString Name ++ "' in module '"
                    ++ CkCString ModuleName ++ "'"))
          | some Variable => .ok (true, Arguments.set 0 Variable) Vm
      | some (.object none) => .fault .invalidPointer Vm
      | _ => .fault .badCast Vm

/-- The primitive `CkpModuleToString` (`__str@0`).  `Name` and `Path` are the
C strings `Module->Name->Value` and `Module->Path->Value`. -/
def CkpModuleToString (Vm : CkVm) (Arguments : List CkValue) : CkOutcome (Bool × List CkValue) :=
  match Arguments.head? with
  | some (.object (some Module)) =>
    match Vm.Heap[Module]? with
    | none => .fault .invalidPointer Vm
    | some Object =>
      let Name :=
        match Object.Name with
        | some Text => CkCString Text
        | none => "<builtin>"
      match Object.Path with
      | some Path =>
        .ok (true,
          Arguments.set 0 (CkpStringFormat "<module \"$\" at \"$\">" [Name, CkCString Path])) Vm
      | none => .ok (true, Arguments.set 0 (CkpStringFormat "<module \"$\">" [Name])) Vm
  | some (.object none) => .fault .invalidPointer Vm
  | _ => .fault .badCast Vm

/-! ## Predicates on machine states -/

/-- What a routine returned, when it did not fault. -/
def CkOutcome.result {α : Type} : CkOutcome α → Option α
  | .ok Value _ => some Value
  | .fault _ _ => none

/-- The module object has no pending initializer: neither a fiber nor an
entry function. -/
def CkIdle (Object : CkModule) : Prop :=
  Object.Fiber = none ∧ Object.EntryFunction = none

/-- No module object holds both a pending fiber and a pending entry
function. -/
def CkSinglePending (Vm : CkVm) : Prop :=
  ∀ Object ∈ Vm.Heap, Object.Fiber = none ∨ Object.EntryFunction = none

/-- A bootstrap state: the core module, which has no name and no pending
initializer, is the only module object and is registered under the null
value. -/
def CkBootstrap (Vm : CkVm) : Prop :=
  ∃ Core, Vm.Heap = [Core] ∧ Vm.Modules = [(CkNullValue, 0)] ∧ Core.Name = none ∧
    Core.Fiber = none ∧ Core.EntryFunction = none

/-- The module registered under the name, if any, has no pending entry
function. -/
def CkNoEntryRegistered (Vm : CkVm) (ModuleName : CkValue) : Prop :=
  ∀ Found Object, CkpModuleGet Vm ModuleName = some Found → Vm.Heap[Found]? = some Object →
    Object.EntryFunction = none

/-- States reachable from a bootstrap state by loads, by the source path on a
name whose registered module has no pending entry function, by the foreign
path on a name that is not registered, and by runs.  The state in which a
routine faults counts as reached. -/
inductive CkReachable (Env : CkEnvironment) : CkVm → Prop where
  | bootstrap (Vm : CkVm) : CkBootstrap Vm → CkReachable Env Vm
  | load (Vm : CkVm) (ModuleName : CkValue) :
      CkReachable Env Vm → CkReachable Env (CkpModuleLoad Env Vm ModuleName).finalVm
  | loadSource (Vm : CkVm) (ModuleName Path : CkValue) (Source : String) :
      CkReachable Env Vm → CkNoEntryRegistered Vm ModuleName →
      CkReachable Env (CkpModuleLoadSource Env Vm ModuleName Path Source).finalVm
  | loadForeign (Vm : CkVm) (ModuleName Path : CkValue) (Handle : Option Nat) (Entry : Nat) :
      CkReachable Env Vm → CkpModuleGet Vm ModuleName = none →
      CkReachable Env (CkpModuleLoadForeign Vm ModuleName Path Handle Entry).finalVm
  | run (Vm : CkVm) (Arguments : List CkValue) :
      CkReachable Env Vm → CkReachable Env (CkpModuleRun Vm Arguments).finalVm

/-! ## Concrete machines and hosts used to exercise the routines -/

/-- The machine after bootstrap: the core module, with two variables, is the
only module and is registered under the null value; one fiber is running and
has no pending error; the allocator grants every request. -/
def CkBootVm : CkVm where
  Modules := [(CkNullValue, 0)]
  Heap := [{ CkZeroModule none none with
               Variables := [("Object", .integer 1), ("print", .integer 2)] }]
  Fibers := [{ Frames := [], Error := CkNullValue, Caller := none }]
  Fiber := some 0
  Memory := []
  LoadRequests := []
  CompileRequests := []
  Unloaded := []
  Raised := []
  Called := []

/-- An environment whose load callback gives the same answer to every
request, whose unload callback is configured, and whose compiler accepts every
text but `var x = ;`. -/
def CkHostAnswering (Answer : CkLoadModuleResult) : CkEnvironment where
  Configuration := { LoadModule := some (fun _ _ => Answer), UnloadForeignModule := true }
  Compile := fun _ _ Source => if Source = "var x = ;" then none else some 0

/-- A host that answers every request with the source text `var x = ;`, which
the compiler rejects. -/
def CkBadSourceHost : CkEnvironment :=
  CkHostAnswering (.CkLoadModuleSource "/lib/bad.ck" "var x = ;")

/-- The bootstrap machine with an error already pending on the running
fiber. -/
def CkPendingErrorVm : CkVm :=
  { CkBootVm with
      Fibers := [{ Frames := [], Error := .exception "ValueError" "earlier", Caller := none }] }

/-- The bootstrap machine with an allocator that grants the four allocations
of a foreign load up to the entry name and refuses the fifth, the entry
closure. -/
def CkNoClosureVm : CkVm :=
  { CkBootVm with Memory := [true, true, true, true, false] }

/-- A host that answers every request with a foreign library: no path,
library handle 7, entry point 42. -/
def CkForeignHost : CkEnvironment :=
  CkHostAnswering (.CkLoadModuleForeign "" (some 7) 42)

/-- The state reached by loading `native` from the foreign host on the machine
whose allocator refuses the entry closure. -/
def CkNoClosureLoaded : CkVm :=
  (CkpModuleLoad CkForeignHost CkNoClosureVm (.string "native")).finalVm

/-- The state reached on the bootstrap machine by the foreign path for
`native`, with library handle 7 and entry point 42. -/
def CkForeignLoaded : CkVm :=
  (CkpModuleLoadForeign CkBootVm (.string "native") CkNullValue (some 7) 42).finalVm

/-- The entry closure the foreign path builds for module 1. -/
def CkNativeEntry : CkClosure :=
  .foreign 42 1 (some CK_MODULE_ENTRY_NAME) 0

/-- The module object the foreign path leaves at address 1. -/
def CkNativeModule : CkModule :=
  { CkZeroModule (some "native") none with
      Variables := [("Object", .integer 1), ("print", .integer 2)]
      EntryFunction := some CkNativeEntry }

/-- The state reached on the bootstrap machine by the source path for `geo`. -/
def CkSourceLoaded : CkVm :=
  (CkpModuleLoadSource (CkHostAnswering .CkLoadModuleNotFound) CkBootVm (.string "geo")
    (.string "/lib/geo.ck") "var x = 1;").finalVm

/-- The module object the source path leaves at address 1. -/
def CkGeoModule : CkModule :=
  { CkZeroModule (some "geo") (some "/lib/geo.ck") with
      Variables := [("Object", .integer 1), ("print", .integer 2)]
      Fiber := some 1 }

/-- The fiber the source path prepares for module 1. -/
def CkGeoFiber : CkFiber :=
  { Frames := [.block 0], Error := CkNullValue, Caller := none }

/-- The state reached from `CkSourceLoaded` by a first `run` of module 1. -/
def CkSourceRunning : CkVm :=
  (CkpModuleRun CkSourceLoaded [.object (some 1)]).finalVm

/-- An environment with no load callback configured. -/
def CkNoHost : CkEnvironment where
  Configuration := { LoadModule := none, UnloadForeignModule := true }
  Compile := fun _ _ _ => some 0

/-- The bootstrap machine with an allocator that grants the module object, its
two string tables and the closure of the compiled function, and refuses the
fifth request, the fiber. -/
def CkNoFiberVm : CkVm :=
  { CkBootVm with Memory := [true, true, true, true, false] }

/-- The bootstrap machine with one more module, `idle`, at address 1, whose
pending fiber is fiber 0, a fiber with no frame and no pending error. -/
def CkEmptyFiberVm : CkVm :=
  { CkBootVm with
      Modules := [(CkNullValue, 0), (.string "idle", 1)]
      Heap := CkBootVm.Heap ++ [{ CkZeroModule (some "idle") none with Fiber := some 0 }] }

/-- A machine whose core module defines `a`, `b` and `c`, in this order. -/
def CkAbcVm : CkVm :=
  { CkBootVm with
      Heap := [{ CkZeroModule none none with
                   Variables := [("a", .integer 1), ("b", .integer 2), ("c", .integer 3)] }] }

/-- The state reached from `CkAbcVm` by creating the module `geo`. -/
def CkAbcCreated : CkVm :=
  (CkpModuleCreate CkAbcVm (some "geo") none).finalVm

/-- The state reached from `CkForeignLoaded`, where `native` is a foreign
module with a pending entry function, by the source path for `native`. -/
def CkNativeReloaded : CkVm :=
  (CkpModuleLoadSource (CkHostAnswering .CkLoadModuleNotFound) CkForeignLoaded (.string "native")
    CkNullValue "var x = 1;").finalVm

/-- The state reached from the bootstrap machine by creating a module with no
path whose name is the five characters `g`, `e`, NUL, `o`, `s`. -/
def CkNulNameVm : CkVm :=
  (CkpModuleCreate CkBootVm (some "ge\x00os") none).finalVm

/-! ## Registry lemmas -/

theorem CkpDictGet_undefined_or_object (Dict : List (CkValue × Nat)) (Key : CkValue) :
    CkpDictGet Dict Key = .undefined ∨ ∃ Module, CkpDictGet Dict Key = .object (some Module) := by
  induction Dict with
  | nil => left; rfl
  | cons Entry Rest ih =>
    obtain ⟨Key1, Module1⟩ := Entry
    by_cases h : Key1 = Key
    · right; exact ⟨Module1, by simp [CkpDictGet, h, CK_OBJECT_VALUE]⟩
    · simpa [CkpDictGet, h] using ih

theorem CkpDictGet_CkpDictSet_self (Dict : List (CkValue × Nat)) (Key : CkValue) (Module : Nat) :
    CkpDictGet (CkpDictSet Dict Key Module) Key = .object (some Module) := by
  induction Dict with
  | nil => simp [CkpDictSet, CkpDictGet, CK_OBJECT_VALUE]
  | cons Entry Rest ih =>
    obtain ⟨Key1, Module1⟩ := Entry
    by_cases h : Key1 = Key
    · simp [CkpDictSet, CkpDictGet, h, CK_OBJECT_VALUE]
    · simp [CkpDictSet, CkpDictGet, h, ih]

theorem CkpDictGet_CkpDictSet_other (Dict : List (CkValue × Nat)) (Key Other : CkValue)
    (Module : Nat) (h : Key ≠ Other) :
    CkpDictGet (CkpDictSet Dict Key Module) Other = CkpDictGet Dict Other := by
  induction Dict with
  | nil => simp [CkpDictSet, CkpDictGet, h]
  | cons Entry Rest ih =>
    obtain ⟨Key1, Module1⟩ := Entry
    by_cases h1 : Key1 = Key
    · subst h1; simp [CkpDictSet, CkpDictGet, h]
    · by_cases h2 : Key1 = Other
      · subst h2; simp [CkpDictSet, CkpDictGet, h1]
      · simp [CkpDictSet, CkpDictGet, h1, h2, ih]

theorem CkpDictSet_absent (Dict : List (CkValue × Nat)) (Key : CkValue) (Module : Nat)
    (h : CkpDictGet Dict Key = .undefined) :
    CkpDictSet Dict Key Module = Dict ++ [(Key, Module)] := by
  induction Dict with
  | nil => rfl
  | cons Entry Rest ih =>
    obtain ⟨Key1, Module1⟩ := Entry
    by_cases h1 : Key1 = Key
    · simp [CkpDictGet, h1, CK_OBJECT_VALUE] at h
    · simp [CkpDictGet, h1] at h
      simp [CkpDictSet, h1, ih h]

theorem CkpModuleGet_eq_none_iff (Vm : CkVm) (Name : CkValue) :
    CkpModuleGet Vm Name = none ↔ CkpDictGet Vm.Modules Name = .undefined := by
  unfold CkpModuleGet
  rcases CkpDictGet_undefined_or_object Vm.Modules Name with h | ⟨Module, h⟩
  · simp [h, CK_IS_UNDEFINED]
  · simp [h, CK_IS_UNDEFINED, CK_AS_MODULE]

theorem CkpModuleGet_eq_some_iff (Vm : CkVm) (Name : CkValue) (Module : Nat) :
    CkpModuleGet Vm Name = some Module ↔ CkpDictGet Vm.Modules Name = .object (some Module) := by
  unfold CkpModuleGet
  rcases CkpDictGet_undefined_or_object Vm.Modules Name with h | ⟨Module1, h⟩
  · simp [h, CK_IS_UNDEFINED]
  · simp [h, CK_IS_UNDEFINED, CK_AS_MODULE]

theorem CkpModuleGet_of_Modules_eq (Vm Vm1 : CkVm) (Name : CkValue) (h : Vm1.Modules = Vm.Modules) :
    CkpModuleGet Vm1 Name = CkpModuleGet Vm Name := by
  simp [CkpModuleGet, h]

/-! ## Allocator and constructors -/

theorem CkAllocate_cases (Vm : CkVm) :
    ∃ Granted Rest, CkAllocate Vm = (Granted, { Vm with Memory := Rest }) := by
  unfold CkAllocate
  split
  · exact ⟨true, Vm.Memory, rfl⟩
  · exact ⟨_, _, rfl⟩

theorem CkpModuleAllocate_cases (Vm : CkVm) (Name Path : Option String) :
    (∃ Rest Garbage, (∀ Object ∈ Garbage, CkIdle Object) ∧ CkpModuleAllocate Vm Name Path
        = (none, { Vm with Memory := Rest, Heap := Vm.Heap ++ Garbage })) ∨
    (∃ Rest, CkpModuleAllocate Vm Name Path
        = (some Vm.Heap.length,
            { Vm with Memory := Rest, Heap := Vm.Heap ++ [CkZeroModule Name Path] })) := by
  unfold CkpModuleAllocate CkpStringTableInitialize
  obtain ⟨G1, R1, h1⟩ := CkAllocate_cases Vm
  rw [h1]
  cases G1
  · left; exact ⟨R1, [], by simp, by simp⟩
  · obtain ⟨G2, R2, h2⟩ := CkAllocate_cases
      { Vm with Memory := R1, Heap := Vm.Heap ++ [CkZeroModule Name Path] }
    simp only [h2]
    cases G2
    · left; exact ⟨R2, [CkZeroModule Name Path], by simp [CkIdle, CkZeroModule], by simp⟩
    · obtain ⟨G3, R3, h3⟩ := CkAllocate_cases
        { Vm with Memory := R2, Heap := Vm.Heap ++ [CkZeroModule Name Path] }
      simp only [h3]
      cases G3
      · left; exact ⟨R3, [CkZeroModule Name Path], by simp [CkIdle, CkZeroModule], by simp⟩
      · right; exact ⟨R3, by simp⟩

theorem CkVm.storeModule_last (Vm : CkVm) (Old : List CkModule) (Object : CkModule)
    (Update : CkModule → CkModule) (h : Vm.Heap = Old ++ [Object]) :
    Vm.storeModule Old.length Update = some { Vm with Heap := Old ++ [Update Object] } := by
  unfold CkVm.storeModule
  simp [h]

theorem CkpDefineModuleVariable_last (Vm : CkVm) (Old : List CkModule) (Object : CkModule)
    (Name : String) (Value : CkValue) (h : Vm.Heap = Old ++ [Object]) :
    CkpDefineModuleVariable Vm Old.length Name Value
      = { Vm with Heap := Old ++
            [{ Object with Variables := CkpDefineVariable Object.Variables Name Value }] } := by
  unfold CkpDefineModuleVariable
  rw [CkVm.storeModule_last Vm Old Object _ h]

theorem CkpDefineModuleVariable_fold (Module : Nat) (Core : List (String × CkValue)) :
    ∀ (Vm : CkVm) (Old : List CkModule) (Object : CkModule),
      Vm.Heap = Old ++ [Object] → Module = Old.length →
      Core.foldl (fun Vm3 Variable => CkpDefineModuleVariable Vm3 Module Variable.1 Variable.2) Vm
        = { Vm with Heap := Old ++
              [{ Object with Variables := CkSeedVariables Object.Variables Core }] } := by
  induction Core with
  | nil =>
    intro Vm Old Object h _
    simp [CkSeedVariables, ← h]
  | cons Variable Rest ih =>
    intro Vm Old Object h hM
    subst hM
    have step := ih (CkpDefineModuleVariable Vm Old.length Variable.1 Variable.2) Old
      { Object with Variables := CkpDefineVariable Object.Variables Variable.1 Variable.2 }
      (by rw [CkpDefineModuleVariable_last Vm Old Object _ _ h]) rfl
    rw [List.foldl_cons, step, CkpDefineModuleVariable_last Vm Old Object _ _ h]
    simp [CkSeedVariables]

theorem CkpModuleCreate_cases (Vm : CkVm) (Name Path : Option String) :
    (∃ Rest Garbage, (∀ Object ∈ Garbage, CkIdle Object) ∧ CkpModuleCreate Vm Name Path
        = .ok none { Vm with Memory := Rest, Heap := Vm.Heap ++ Garbage }) ∨
    (∃ Rest, CkpModuleCreate Vm Name Path
        = .fault .invalidPointer
            { Vm with Memory := Rest, Heap := Vm.Heap ++ [CkZeroModule Name Path],
                      Modules := CkpDictSet Vm.Modules (CK_STRING_VALUE Name) Vm.Heap.length }) ∨
    (∃ Rest Variables, CkpModuleCreate Vm Name Path
        = .ok (some Vm.Heap.length)
            { Vm with Memory := Rest,
                      Heap := Vm.Heap ++ [{ CkZeroModule Name Path with Variables := Variables }],
                      Modules := CkpDictSet Vm.Modules (CK_STRING_VALUE Name) Vm.Heap.length }) := by
  unfold CkpModuleCreate
  rcases CkpModuleAllocate_cases Vm Name Path with ⟨Rest, Garbage, hG, h⟩ | ⟨Rest, h⟩
  · left; exact ⟨Rest, Garbage, hG, by rw [h]⟩
  · right
    rw [h]
    simp only []
    split
    · left; exact ⟨Rest, rfl⟩
    · split
      · left; exact ⟨Rest, rfl⟩
      · rename_i Core _
        right
        refine ⟨Rest, CkSeedVariables [] Core.Variables, ?_⟩
        rw [CkpDefineModuleVariable_fold Vm.Heap.length Core.Variables _ Vm.Heap
          (CkZeroModule Name Path) rfl rfl]
        rfl

theorem CK_AS_STRING_string (Text : String) : CK_AS_STRING (.string Text) = some Text := rfl

theorem CkPathString_eq (Path : CkValue) :
    (if CK_IS_STRING Path = true then CK_AS_STRING Path else none) = CK_AS_STRING Path := by
  cases Path <;> simp [CK_IS_STRING, CK_AS_STRING]

theorem CkpClosureCreate_cases (Vm : CkVm) (Function : Nat) :
    ∃ Rest, CkpClosureCreate Vm Function = (none, { Vm with Memory := Rest }) ∨
      CkpClosureCreate Vm Function = (some (.block Function), { Vm with Memory := Rest }) := by
  unfold CkpClosureCreate
  obtain ⟨Granted, Rest, h⟩ := CkAllocate_cases Vm
  rw [h]
  cases Granted
  · exact ⟨Rest, Or.inl rfl⟩
  · exact ⟨Rest, Or.inr rfl⟩

theorem CkpClosureCreateForeign_cases (Vm : CkVm) (EntryPoint Module : Nat)
    (Name : Option String) (Arity : Nat) :
    ∃ Rest, CkpClosureCreateForeign Vm EntryPoint Module Name Arity
        = (none, { Vm with Memory := Rest }) ∨
      CkpClosureCreateForeign Vm EntryPoint Module Name Arity
        = (some (.foreign EntryPoint Module Name Arity), { Vm with Memory := Rest }) := by
  unfold CkpClosureCreateForeign
  obtain ⟨Granted, Rest, h⟩ := CkAllocate_cases Vm
  rw [h]
  cases Granted
  · exact ⟨Rest, Or.inl rfl⟩
  · exact ⟨Rest, Or.inr rfl⟩

theorem CkpStringCreate_cases (Vm : CkVm) (Text : String) :
    ∃ Rest, CkpStringCreate Vm Text = (CkNullValue, { Vm with Memory := Rest }) ∨
      CkpStringCreate Vm Text = (.string Text, { Vm with Memory := Rest }) := by
  unfold CkpStringCreate
  obtain ⟨Granted, Rest, h⟩ := CkAllocate_cases Vm
  rw [h]
  cases Granted
  · exact ⟨Rest, Or.inl rfl⟩
  · exact ⟨Rest, Or.inr rfl⟩

theorem CkpFiberCreate_cases (Vm : CkVm) (Closure : CkClosure) :
    ∃ Rest, CkpFiberCreate Vm Closure = (none, { Vm with Memory := Rest }) ∨
      CkpFiberCreate Vm Closure
        = (some Vm.Fibers.length,
            { Vm with Memory := Rest,
                      Fibers := Vm.Fibers ++
                        [{ Frames := [Closure], Error := CkNullValue, Caller := none }] }) := by
  unfold CkpFiberCreate
  obtain ⟨Granted, Rest, h⟩ := CkAllocate_cases Vm
  rw [h]
  cases Granted
  · exact ⟨Rest, Or.inl rfl⟩
  · exact ⟨Rest, Or.inr rfl⟩

/-- The second half of the source path on a module that is the last object of
the heap: every way it can end. -/
theorem CkpModuleLoadSourceCompile_last_cases (Env : CkEnvironment) (Vm : CkVm)
    (Old : List CkModule) (Object : CkModule) (Source : String) (h : Vm.Heap = Old ++ [Object]) :
    (∃ Rest, CkpModuleLoadSourceCompile Env Vm Old.length Source
        = .ok none { Vm with Memory := Rest,
                             CompileRequests := Vm.CompileRequests ++ [(Old.length, Source)] }) ∨
    (∃ Rest Function Fiber Fibers,
      Env.Compile Vm Old.length Source = some Function ∧
      ((Fiber = none ∧ Fibers = Vm.Fibers) ∨
        (Fiber = some Vm.Fibers.length ∧
          Fibers = Vm.Fibers ++
            [{ Frames := [.block Function], Error := CkNullValue, Caller := none }])) ∧
      CkpModuleLoadSourceCompile Env Vm Old.length Source
        = .ok (some Old.length)
            { Vm with Memory := Rest,
                      Heap := Old ++ [{ Object with Fiber := Fiber }],
                      Fibers := Fibers,
                      CompileRequests := Vm.CompileRequests ++ [(Old.length, Source)] }) := by
  unfold CkpModuleLoadSourceCompile CkpCompile
  cases hF : Env.Compile Vm Old.length Source with
  | none => left; exact ⟨Vm.Memory, rfl⟩
  | some Function =>
    simp only []
    obtain ⟨R1, hcl | hcl⟩ := CkpClosureCreate_cases
      { Vm with CompileRequests := Vm.CompileRequests ++ [(Old.length, Source)] } Function
    · left; rw [hcl]; exact ⟨R1, rfl⟩
    · right
      rw [hcl]
      simp only []
      obtain ⟨R2, hfb | hfb⟩ := CkpFiberCreate_cases
        { Vm with Memory := R1,
                  CompileRequests := Vm.CompileRequests ++ [(Old.length, Source)] }
        (.block Function)
      · rw [hfb]
        refine ⟨R2, Function, none, Vm.Fibers, rfl, Or.inl ⟨rfl, rfl⟩, ?_⟩
        simp [CkVm.storeModule, h]
      · rw [hfb]
        refine ⟨R2, Function, some Vm.Fibers.length, _, rfl, Or.inr ⟨rfl, rfl⟩, ?_⟩
        simp [CkVm.storeModule, h]

/-- The source path on a name that is not registered: every way it can end. -/
theorem CkpModuleLoadSource_fresh_cases (Env : CkEnvironment) (Vm : CkVm) (Name : String)
    (Path : CkValue) (Source : String) (h : CkpModuleGet Vm (.string Name) = none) :
    (∃ Rest Garbage, (∀ Object ∈ Garbage, CkIdle Object) ∧ CkpModuleLoadSource Env Vm (.string Name) Path Source
        = .ok none { Vm with Memory := Rest, Heap := Vm.Heap ++ Garbage }) ∨
    (∃ Rest, CkpModuleLoadSource Env Vm (.string Name) Path Source
        = .fault .invalidPointer
            { Vm with Memory := Rest,
                      Heap := Vm.Heap ++ [CkZeroModule (some Name) (CK_AS_STRING Path)],
                      Modules := CkpDictSet Vm.Modules (.string Name) Vm.Heap.length }) ∨
    (∃ Rest Variables, CkpModuleLoadSource Env Vm (.string Name) Path Source
        = .ok none
            { Vm with Memory := Rest,
                      Heap := Vm.Heap ++ [{ CkZeroModule (some Name) (CK_AS_STRING Path) with
                                              Variables := Variables }],
                      Modules := CkpDictSet Vm.Modules (.string Name) Vm.Heap.length,
                      CompileRequests := Vm.CompileRequests ++ [(Vm.Heap.length, Source)] }) ∨
    (∃ Rest Variables Function Fiber Fibers,
      (∃ Context, Env.Compile Context Vm.Heap.length Source = some Function) ∧
      ((Fiber = none ∧ Fibers = Vm.Fibers) ∨
        (Fiber = some Vm.Fibers.length ∧
          Fibers = Vm.Fibers ++
            [{ Frames := [.block Function], Error := CkNullValue, Caller := none }])) ∧
      CkpModuleLoadSource Env Vm (.string Name) Path Source
        = .ok (some Vm.Heap.length)
            { Vm with Memory := Rest,
                      Heap := Vm.Heap ++ [{ CkZeroModule (some Name) (CK_AS_STRING Path) with
                                              Variables := Variables, Fiber := Fiber }],
                      Fibers := Fibers,
                      Modules := CkpDictSet Vm.Modules (.string Name) Vm.Heap.length,
                      CompileRequests := Vm.CompileRequests ++ [(Vm.Heap.length, Source)] }) := by
  unfold CkpModuleLoadSource
  simp only [h, CK_AS_STRING_string, CkPathString_eq]
  rcases CkpModuleCreate_cases Vm (some Name) (CK_AS_STRING Path) with
    ⟨Rest, Garbage, hG, hc⟩ | ⟨Rest, hc⟩ | ⟨Rest, Variables, hc⟩
  · left; exact ⟨Rest, Garbage, hG, by rw [hc]⟩
  · right; left; exact ⟨Rest, by rw [hc]; rfl⟩
  · right; right
    rw [hc]
    simp only [CK_STRING_VALUE]
    rcases CkpModuleLoadSourceCompile_last_cases Env
        { Vm with Memory := Rest,
                  Heap := Vm.Heap ++ [{ CkZeroModule (some Name) (CK_AS_STRING Path) with
                                          Variables := Variables }],
                  Modules := CkpDictSet Vm.Modules (.string Name) Vm.Heap.length }
        Vm.Heap _ Source rfl with
      ⟨R1, ht⟩ | ⟨R1, Function, Fiber, Fibers, hF, hFib, ht⟩
    · left; exact ⟨R1, Variables, by rw [ht]⟩
    · right
      exact ⟨R1, Variables, Function, Fiber, Fibers, ⟨_, hF⟩, hFib, by rw [ht]⟩

/-- The foreign path on a name that is not registered: every way it can
end. -/
theorem CkpModuleLoadForeign_fresh_cases (Vm : CkVm) (Name : String) (Path : CkValue)
    (Handle : Option Nat) (EntryPoint : Nat) (h : CkpModuleGet Vm (.string Name) = none) :
    (∃ Rest Garbage, (∀ Object ∈ Garbage, CkIdle Object) ∧ CkpModuleLoadForeign Vm (.string Name) Path Handle EntryPoint
        = .ok none { Vm with Memory := Rest, Heap := Vm.Heap ++ Garbage }) ∨
    (∃ Rest, CkpModuleLoadForeign Vm (.string Name) Path Handle EntryPoint
        = .fault .invalidPointer
            { Vm with Memory := Rest,
                      Heap := Vm.Heap ++ [CkZeroModule (some Name) (CK_AS_STRING Path)],
                      Modules := CkpDictSet Vm.Modules (.string Name) Vm.Heap.length }) ∨
    (∃ Rest Variables, CkpModuleLoadForeign Vm (.string Name) Path Handle EntryPoint
        = .ok none
            { Vm with Memory := Rest,
                      Heap := Vm.Heap ++ [{ CkZeroModule (some Name) (CK_AS_STRING Path) with
                                              Variables := Variables }],
                      Modules := CkpDictSet Vm.Modules (.string Name) Vm.Heap.length }) ∨
    (∃ Rest Variables FunctionName, CkpModuleLoadForeign Vm (.string Name) Path Handle EntryPoint
        = .ok (some Vm.Heap.length)
            { Vm with Memory := Rest,
                      Heap := Vm.Heap ++ [{ CkZeroModule (some Name) (CK_AS_STRING Path) with
                                              Variables := Variables,
                                              EntryFunction := some
                                                (.foreign EntryPoint Vm.Heap.length FunctionName 0) }],
                      Modules := CkpDictSet Vm.Modules (.string Name) Vm.Heap.length }) := by
  unfold CkpModuleLoadForeign
  simp only [h, CK_AS_STRING_string, CkPathString_eq]
  rcases CkpModuleCreate_cases Vm (some Name) (CK_AS_STRING Path) with
    ⟨Rest, Garbage, hG, hc⟩ | ⟨Rest, hc⟩ | ⟨Rest, Variables, hc⟩
  · left; exact ⟨Rest, Garbage, hG, by rw [hc]⟩
  · right; left; exact ⟨Rest, by rw [hc]; rfl⟩
  · right; right
    rw [hc]
    simp only [CK_STRING_VALUE]
    obtain ⟨R1, hs⟩ : ∃ R1, ∃ FunctionNameValue, CkpStringCreate
        { Vm with Memory := Rest,
                  Heap := Vm.Heap ++ [{ CkZeroModule (some Name) (CK_AS_STRING Path) with
                                          Variables := Variables }],
                  Modules := CkpDictSet Vm.Modules (.string Name) Vm.Heap.length }
        CK_MODULE_ENTRY_NAME
        = (FunctionNameValue,
            { Vm with Memory := R1,
                      Heap := Vm.Heap ++ [{ CkZeroModule (some Name) (CK_AS_STRING Path) with
                                              Variables := Variables }],
                      Modules := CkpDictSet Vm.Modules (.string Name) Vm.Heap.length }) := by
      obtain ⟨R1, hs | hs⟩ := CkpStringCreate_cases
        { Vm with Memory := Rest,
                  Heap := Vm.Heap ++ [{ CkZeroModule (some Name) (CK_AS_STRING Path) with
                                          Variables := Variables }],
                  Modules := CkpDictSet Vm.Modules (.string Name) Vm.Heap.length }
        CK_MODULE_ENTRY_NAME
      · exact ⟨R1, _, hs⟩
      · exact ⟨R1, _, hs⟩
    obtain ⟨FunctionNameValue, hs⟩ := hs
    rw [hs]
    simp only []
    obtain ⟨R2, hcl | hcl⟩ := CkpClosureCreateForeign_cases
        { Vm with Memory := R1,
                  Heap := Vm.Heap ++ [{ CkZeroModule (some Name) (CK_AS_STRING Path) with
                                          Variables := Variables }],
                  Modules := CkpDictSet Vm.Modules (.string Name) Vm.Heap.length }
        EntryPoint Vm.Heap.length
        (if (!CK_IS_NULL FunctionNameValue) = true then CK_AS_STRING FunctionNameValue else none) 0
    · left; rw [hcl]; exact ⟨R2, Variables, rfl⟩
    · right; rw [hcl]
      refine ⟨R2, Variables,
        (if (!CK_IS_NULL FunctionNameValue) = true then CK_AS_STRING FunctionNameValue else none),
        ?_⟩
      simp [CkVm.storeModule]

/-! ## The loader -/

theorem CkpModuleLoadPath_cases (Vm : CkVm) (Path : String) :
    ∃ PathValue Rest, CkpModuleLoadPath Vm Path = (PathValue, { Vm with Memory := Rest }) := by
  unfold CkpModuleLoadPath
  split
  · obtain ⟨Rest, h | h⟩ := CkpStringCreate_cases Vm Path
    · exact ⟨_, Rest, h⟩
    · exact ⟨_, Rest, h⟩
  · exact ⟨_, Vm.Memory, rfl⟩

/-- A name that is registered is answered from the registry, the state being
left as it is. -/
theorem CkpModuleLoad_registered (Env : CkEnvironment) (Vm : CkVm) (Name : String) (Module : Nat)
    (h : CkpModuleGet Vm (.string Name) = some Module) :
    CkpModuleLoad Env Vm (.string Name) = .ok (.object (some Module)) Vm := by
  unfold CkpModuleLoad
  simp only [CK_AS_STRING_string, h, CK_OBJECT_VALUE]

/-- The `Source` arm of the loader on a name that is not registered. -/
theorem CkpModuleLoadSwitch_source_cases (Env : CkEnvironment) (Vm : CkVm) (Name : String)
    (Path Text : String) (h : CkpModuleGet Vm (.string Name) = none) :
    (∃ Rest Garbage, (∀ Object ∈ Garbage, CkIdle Object) ∧ CkpModuleLoadSwitch Env Vm (.string Name) Name (.CkLoadModuleSource Path Text)
        = .ok (.returned CkNullValue)
            (CkpRuntimeError { Vm with Memory := Rest, Heap := Vm.Heap ++ Garbage }
              "CompileError" ("Module compile error: " ++ CkCString Name))) ∨
    (∃ Rest PathString,
      CkpModuleLoadSwitch Env Vm (.string Name) Name (.CkLoadModuleSource Path Text)
        = .fault .invalidPointer
            { Vm with Memory := Rest,
                      Heap := Vm.Heap ++ [CkZeroModule (some Name) PathString],
                      Modules := CkpDictSet Vm.Modules (.string Name) Vm.Heap.length }) ∨
    (∃ Rest Variables PathString,
      CkpModuleLoadSwitch Env Vm (.string Name) Name (.CkLoadModuleSource Path Text)
        = .ok (.returned CkNullValue)
            (CkpRuntimeError
              { Vm with Memory := Rest,
                        Heap := Vm.Heap ++ [{ CkZeroModule (some Name) PathString with
                                                Variables := Variables }],
                        Modules := CkpDictSet Vm.Modules (.string Name) Vm.Heap.length,
                        CompileRequests := Vm.CompileRequests ++ [(Vm.Heap.length, Text)] }
              "CompileError" ("Module compile error: " ++ CkCString Name))) ∨
    (∃ Rest Variables PathString Function Fiber Fibers,
      (∃ Context, Env.Compile Context Vm.Heap.length Text = some Function) ∧
      ((Fiber = none ∧ Fibers = Vm.Fibers) ∨
        (Fiber = some Vm.Fibers.length ∧
          Fibers = Vm.Fibers ++
            [{ Frames := [.block Function], Error := CkNullValue, Caller := none }])) ∧
      CkpModuleLoadSwitch Env Vm (.string Name) Name (.CkLoadModuleSource Path Text)
        = .ok (.broke (some Vm.Heap.length))
            { Vm with Memory := Rest,
                      Heap := Vm.Heap ++ [{ CkZeroModule (some Name) PathString with
                                              Variables := Variables, Fiber := Fiber }],
                      Fibers := Fibers,
                      Modules := CkpDictSet Vm.Modules (.string Name) Vm.Heap.length,
                      CompileRequests := Vm.CompileRequests ++ [(Vm.Heap.length, Text)] }) := by
  obtain ⟨PathValue, Rest0, hp⟩ := CkpModuleLoadPath_cases Vm Path
  unfold CkpModuleLoadSwitch
  simp only [hp]
  rcases CkpModuleLoadSource_fresh_cases Env { Vm with Memory := Rest0 } Name PathValue Text
      (by rw [← h]; exact CkpModuleGet_of_Modules_eq _ _ _ rfl) with
    ⟨Rest, Garbage, hG, hl⟩ | ⟨Rest, hl⟩ | ⟨Rest, Variables, hl⟩ |
    ⟨Rest, Variables, Function, Fiber, Fibers, hF, hFib, hl⟩
  · left; rw [hl]; exact ⟨Rest, Garbage, hG, rfl⟩
  · right; left; rw [hl]; exact ⟨Rest, _, rfl⟩
  · right; right; left; rw [hl]; exact ⟨Rest, Variables, _, rfl⟩
  · right; right; right; rw [hl]
    exact ⟨Rest, Variables, _, Function, Fiber, Fibers, hF, hFib, rfl⟩

/-- The `Foreign` arm of the loader on a name that is not registered. -/
theorem CkpModuleLoadSwitch_foreign_cases (Env : CkEnvironment) (Vm : CkVm) (Name : String)
    (Path : String) (Handle : Option Nat) (Entry : Nat)
    (h : CkpModuleGet Vm (.string Name) = none) :
    (∃ Rest Garbage, (∀ Object ∈ Garbage, CkIdle Object) ∧
      CkpModuleLoadSwitch Env Vm (.string Name) Name (.CkLoadModuleForeign Path Handle Entry)
        = .ok (.broke none)
            (CkpModuleLoadForeignFailed Env
              { Vm with Memory := Rest, Heap := Vm.Heap ++ Garbage } Handle)) ∨
    (∃ Rest PathString,
      CkpModuleLoadSwitch Env Vm (.string Name) Name (.CkLoadModuleForeign Path Handle Entry)
        = .fault .invalidPointer
            { Vm with Memory := Rest,
                      Heap := Vm.Heap ++ [CkZeroModule (some Name) PathString],
                      Modules := CkpDictSet Vm.Modules (.string Name) Vm.Heap.length }) ∨
    (∃ Rest Variables PathString,
      CkpModuleLoadSwitch Env Vm (.string Name) Name (.CkLoadModuleForeign Path Handle Entry)
        = .ok (.broke none)
            (CkpModuleLoadForeignFailed Env
              { Vm with Memory := Rest,
                        Heap := Vm.Heap ++ [{ CkZeroModule (some Name) PathString with
                                                Variables := Variables }],
                        Modules := CkpDictSet Vm.Modules (.string Name) Vm.Heap.length }
              Handle)) ∨
    (∃ Rest Variables PathString FunctionName,
      CkpModuleLoadSwitch Env Vm (.string Name) Name (.CkLoadModuleForeign Path Handle Entry)
        = .ok (.broke (some Vm.Heap.length))
            { Vm with Memory := Rest,
                      Heap := Vm.Heap ++ [{ CkZeroModule (some Name) PathString with
                                              Variables := Variables,
                                              EntryFunction := some
                                                (.foreign Entry Vm.Heap.length FunctionName 0) }],
                      Modules := CkpDictSet Vm.Modules (.string Name) Vm.Heap.length }) := by
  obtain ⟨PathValue, Rest0, hp⟩ := CkpModuleLoadPath_cases Vm Path
  unfold CkpModuleLoadSwitch
  simp only [hp]
  rcases CkpModuleLoadForeign_fresh_cases { Vm with Memory := Rest0 } Name PathValue Handle Entry
      (by rw [← h]; exact CkpModuleGet_of_Modules_eq _ _ _ rfl) with
    ⟨Rest, Garbage, hG, hl⟩ | ⟨Rest, hl⟩ | ⟨Rest, Variables, hl⟩ | ⟨Rest, Variables, FunctionName, hl⟩
  · left; rw [hl]; exact ⟨Rest, Garbage, hG, rfl⟩
  · right; left; rw [hl]; exact ⟨Rest, _, rfl⟩
  · right; right; left; rw [hl]; exact ⟨Rest, Variables, _, rfl⟩
  · right; right; right; rw [hl]
    exact ⟨Rest, Variables, _, FunctionName, rfl⟩

/-- On a name that is not registered the loader asks the host and runs the
switch on its answer, in the state that records the request. -/
theorem CkpModuleLoad_unregistered (Env : CkEnvironment) (Vm : CkVm) (Name : String)
    (LoadModule : CkVm → String → CkLoadModuleResult)
    (h : CkpModuleGet Vm (.string Name) = none)
    (hf : Env.Configuration.LoadModule = some LoadModule) :
    CkpModuleLoad Env Vm (.string Name)
      = match CkpModuleLoadSwitch Env { Vm with LoadRequests := Vm.LoadRequests ++ [Name] }
            (.string Name) Name (LoadModule Vm Name) with
        | .fault Fault Vm2 => .fault Fault Vm2
        | .ok (.returned Value) Vm2 => .ok Value Vm2
        | .ok (.broke Module) Vm2 => .ok (CK_OBJECT_VALUE Module) Vm2 := by
  unfold CkpModuleLoad
  simp only [CK_AS_STRING_string, h, hf]

/-- The switch never returns a module on the arms that report an error. -/
theorem CkpModuleLoadSwitch_error_arms (Env : CkEnvironment) (Vm Vm1 : CkVm) (ModuleName : CkValue)
    (Name : String) (LoadStatus : CkLoadModuleResult) (Exit : CkSwitchExit)
    (hs : ∀ Path Text, LoadStatus ≠ .CkLoadModuleSource Path Text)
    (hf : ∀ Path Handle Entry, LoadStatus ≠ .CkLoadModuleForeign Path Handle Entry)
    (h : CkpModuleLoadSwitch Env Vm ModuleName Name LoadStatus = .ok Exit Vm1) :
    Exit = .returned CkNullValue ∨ Exit = .broke none := by
  unfold CkpModuleLoadSwitch at h
  cases LoadStatus with
  | CkLoadModuleSource Path Text => exact absurd rfl (hs Path Text)
  | CkLoadModuleForeign Path Handle Entry => exact absurd rfl (hf Path Handle Entry)
  | CkLoadModuleNoMemory =>
    simp only [] at h
    split at h
    · cases h
    · split at h
      · cases h
      · split at h <;> (cases h; left; rfl)
  | CkLoadModuleNotFound => cases h; left; rfl
  | CkLoadModuleNotSupported => cases h; right; rfl
  | CkLoadModuleStaticError Error => cases h; right; rfl
  | CkLoadModuleFreeError Error => cases h; right; rfl
  | unknown Tag => cases h; left; rfl

/-- A load that returns a module leaves that module registered under the
name. -/
theorem CkpModuleLoad_ok_registers (Env : CkEnvironment) (Vm Vm1 : CkVm) (ModuleName : CkValue)
    (Module : Nat) (h : CkpModuleLoad Env Vm ModuleName = .ok (.object (some Module)) Vm1) :
    CkpModuleGet Vm1 ModuleName = some Module := by
  cases ModuleName with
  | string Name =>
    cases hreg : CkpModuleGet Vm (.string Name) with
    | some Found =>
      rw [CkpModuleLoad_registered Env Vm Name Found hreg] at h
      cases h
      exact hreg
    | none =>
      cases hcfg : Env.Configuration.LoadModule with
      | none =>
        simp [CkpModuleLoad, CK_AS_STRING, hreg, hcfg, CkNullValue] at h
      | some LoadModule =>
        rw [CkpModuleLoad_unregistered Env Vm Name LoadModule hreg hcfg] at h
        have hreg1 : CkpModuleGet { Vm with LoadRequests := Vm.LoadRequests ++ [Name] }
            (.string Name) = none := by
          rw [← hreg]; exact CkpModuleGet_of_Modules_eq _ _ _ rfl
        cases hst : LoadModule Vm Name with
        | CkLoadModuleSource Path Text =>
          rw [hst] at h
          rcases CkpModuleLoadSwitch_source_cases Env _ Name Path Text hreg1 with
            ⟨Rest, Garbage, hG, hl⟩ | ⟨Rest, PathString, hl⟩ | ⟨Rest, Variables, PathString, hl⟩ |
            ⟨Rest, Variables, PathString, Function, Fiber, Fibers, _, _, hl⟩
          · rw [hl] at h; simp [CkNullValue] at h
          · rw [hl] at h; simp at h
          · rw [hl] at h; simp [CkNullValue] at h
          · rw [hl] at h
            simp [CK_OBJECT_VALUE] at h
            obtain ⟨hM, hV⟩ := h
            subst hV
            rw [CkpModuleGet_eq_some_iff, ← hM]
            exact CkpDictGet_CkpDictSet_self _ _ _
        | CkLoadModuleForeign Path Handle Entry =>
          rw [hst] at h
          rcases CkpModuleLoadSwitch_foreign_cases Env _ Name Path Handle Entry hreg1 with
            ⟨Rest, Garbage, hG, hl⟩ | ⟨Rest, PathString, hl⟩ | ⟨Rest, Variables, PathString, hl⟩ |
            ⟨Rest, Variables, PathString, FunctionName, hl⟩
          · rw [hl] at h; simp [CK_OBJECT_VALUE] at h
          · rw [hl] at h; simp at h
          · rw [hl] at h; simp [CK_OBJECT_VALUE] at h
          · rw [hl] at h
            simp [CK_OBJECT_VALUE] at h
            obtain ⟨hM, hV⟩ := h
            subst hV
            rw [CkpModuleGet_eq_some_iff, ← hM]
            exact CkpDictGet_CkpDictSet_self _ _ _
        | _ =>
          rw [hst] at h
          generalize hsw : CkpModuleLoadSwitch Env
            { Vm with LoadRequests := Vm.LoadRequests ++ [Name] } (.string Name) Name _ = Answer at h
          cases Answer with
          | fault Fault Vm2 => cases h
          | ok Exit Vm2 =>
            rcases CkpModuleLoadSwitch_error_arms Env _ _ _ _ _ _
              (by intro _ _ hne; cases hne) (by intro _ _ _ hne; cases hne) hsw with hx | hx
            · subst hx; simp [CkNullValue] at h
            · subst hx; simp [CK_OBJECT_VALUE] at h
  | _ => simp [CkpModuleLoad, CK_AS_STRING] at h

theorem CkpRuntimeError_cases (Vm : CkVm) (ErrorType Message : String) :
    ∃ Fibers, CkpRuntimeError Vm ErrorType Message
      = { Vm with Raised := Vm.Raised ++ [(ErrorType, Message)], Fibers := Fibers } := by
  unfold CkpRuntimeError
  simp only []
  split
  · exact ⟨Vm.Fibers, rfl⟩
  · split
    · exact ⟨Vm.Fibers, rfl⟩
    · rename_i Vm2 hstore
      unfold CkVm.storeFiber at hstore
      split at hstore
      · cases hstore
      · simp only [Option.some.injEq] at hstore
        exact ⟨_, hstore.symm⟩

theorem CkpRuntimeError_LoadRequests (Vm : CkVm) (ErrorType Message : String) :
    (CkpRuntimeError Vm ErrorType Message).LoadRequests = Vm.LoadRequests := by
  obtain ⟨Fibers, h⟩ := CkpRuntimeError_cases Vm ErrorType Message
  rw [h]

theorem CkpRuntimeError_Modules (Vm : CkVm) (ErrorType Message : String) :
    (CkpRuntimeError Vm ErrorType Message).Modules = Vm.Modules := by
  obtain ⟨Fibers, h⟩ := CkpRuntimeError_cases Vm ErrorType Message
  rw [h]

theorem CkpRuntimeError_Heap (Vm : CkVm) (ErrorType Message : String) :
    (CkpRuntimeError Vm ErrorType Message).Heap = Vm.Heap := by
  obtain ⟨Fibers, h⟩ := CkpRuntimeError_cases Vm ErrorType Message
  rw [h]

theorem CkpRuntimeError_Raised (Vm : CkVm) (ErrorType Message : String) :
    (CkpRuntimeError Vm ErrorType Message).Raised = Vm.Raised ++ [(ErrorType, Message)] := by
  obtain ⟨Fibers, h⟩ := CkpRuntimeError_cases Vm ErrorType Message
  rw [h]

theorem CkpRuntimeError_CompileRequests (Vm : CkVm) (ErrorType Message : String) :
    (CkpRuntimeError Vm ErrorType Message).CompileRequests = Vm.CompileRequests := by
  obtain ⟨Fibers, h⟩ := CkpRuntimeError_cases Vm ErrorType Message
  rw [h]

theorem CkpModuleLoadForeignFailed_LoadRequests (Env : CkEnvironment) (Vm : CkVm)
    (Handle : Option Nat) :
    (CkpModuleLoadForeignFailed Env Vm Handle).LoadRequests = Vm.LoadRequests := by
  unfold CkpModuleLoadForeignFailed CkUnloadForeignModule
  split
  · split <;> rfl
  · rfl

/-- Whatever the host answers, and however the switch ends, the trace of host
requests is the one the switch started with. -/
theorem CkpModuleLoadSwitch_LoadRequests (Env : CkEnvironment) (Vm : CkVm) (Name : String)
    (LoadStatus : CkLoadModuleResult) (h : CkpModuleGet Vm (.string Name) = none) :
    (CkpModuleLoadSwitch Env Vm (.string Name) Name LoadStatus).finalVm.LoadRequests
      = Vm.LoadRequests := by
  cases LoadStatus with
  | CkLoadModuleSource Path Text =>
    rcases CkpModuleLoadSwitch_source_cases Env Vm Name Path Text h with
      ⟨Rest, Garbage, hG, hl⟩ | ⟨Rest, PathString, hl⟩ | ⟨Rest, Variables, PathString, hl⟩ |
      ⟨Rest, Variables, PathString, Function, Fiber, Fibers, _, _, hl⟩ <;>
    rw [hl] <;> simp [CkOutcome.finalVm, CkpRuntimeError_LoadRequests]
  | CkLoadModuleForeign Path Handle Entry =>
    rcases CkpModuleLoadSwitch_foreign_cases Env Vm Name Path Handle Entry h with
      ⟨Rest, Garbage, hG, hl⟩ | ⟨Rest, PathString, hl⟩ | ⟨Rest, Variables, PathString, hl⟩ |
      ⟨Rest, Variables, PathString, FunctionName, hl⟩ <;>
    rw [hl] <;> simp [CkOutcome.finalVm, CkpModuleLoadForeignFailed_LoadRequests]
  | CkLoadModuleNoMemory =>
    unfold CkpModuleLoadSwitch
    simp only []
    split
    · rfl
    · split
      · rfl
      · split
        · simp [CkOutcome.finalVm, CkpRuntimeError_LoadRequests]
        · rfl
  | _ => simp [CkpModuleLoadSwitch, CkOutcome.finalVm, CkpRuntimeError_LoadRequests]

/-- A load of a name that is not registered, with a load callback configured,
asks the host exactly once, however the load ends. -/
theorem CkpModuleLoad_asks_host (Env : CkEnvironment) (Vm : CkVm) (Name : String)
    (LoadModule : CkVm → String → CkLoadModuleResult)
    (h : CkpModuleGet Vm (.string Name) = none)
    (hf : Env.Configuration.LoadModule = some LoadModule) :
    (CkpModuleLoad Env Vm (.string Name)).finalVm.LoadRequests = Vm.LoadRequests ++ [Name] := by
  rw [CkpModuleLoad_unregistered Env Vm Name LoadModule h hf]
  have hreg1 : CkpModuleGet { Vm with LoadRequests := Vm.LoadRequests ++ [Name] }
      (.string Name) = none := by
    rw [← h]; exact CkpModuleGet_of_Modules_eq _ _ _ rfl
  have key := CkpModuleLoadSwitch_LoadRequests Env _ Name (LoadModule Vm Name) hreg1
  generalize CkpModuleLoadSwitch Env { Vm with LoadRequests := Vm.LoadRequests ++ [Name] }
    (.string Name) Name (LoadModule Vm Name) = Answer at key
  cases Answer with
  | fault Fault Vm2 => exact key
  | ok Exit Vm2 => cases Exit <;> exact key

/-! ## The run primitive -/

/-- A module with no pending initializer: `run` writes the null value in the
first argument slot, returns `TRUE` and leaves the state as it is. -/
theorem CkpModuleRun_idle (Vm : CkVm) (Module : Nat) (Object : CkModule) (Rest : List CkValue)
    (hM : Vm.Heap[Module]? = some Object) (hF : Object.Fiber = none)
    (hE : Object.EntryFunction = none) :
    CkpModuleRun Vm (.object (some Module) :: Rest) = .ok (true, CkNullValue :: Rest) Vm := by
  unfold CkpModuleRun
  simp [hM, hF, hE]

/-- A module with a pending entry function and no fiber: `run` clears the slot
and then calls the function. -/
theorem CkpModuleRun_entry (Vm : CkVm) (Module : Nat) (Object : CkModule) (Entry : CkClosure)
    (Rest : List CkValue) (hM : Vm.Heap[Module]? = some Object) (hF : Object.Fiber = none)
    (hE : Object.EntryFunction = some Entry) :
    CkpModuleRun Vm (.object (some Module) :: Rest)
      = .ok (true, .object (some Module) :: Rest)
          (CkpCallFunction
            { Vm with Heap := Vm.Heap.set Module { Object with EntryFunction := none } }
            Entry 1 (.object (some Module) :: Rest)) := by
  unfold CkpModuleRun
  simp [hM, hF, hE, CkVm.storeModule]

/-- A module with a pending fiber that passes the assertion: `run` clears the
slot, records the running fiber as the caller and switches to the fiber. -/
theorem CkpModuleRun_fiber (Vm : CkVm) (Module Fiber : Nat) (Object : CkModule)
    (Coroutine : CkFiber) (Rest : List CkValue)
    (hM : Vm.Heap[Module]? = some Object) (hF : Object.Fiber = some Fiber)
    (hC : Vm.Fibers[Fiber]? = some Coroutine) (hfr : Coroutine.FrameCount ≠ 0)
    (herr : Coroutine.Error = CkNullValue) :
    CkpModuleRun Vm (.object (some Module) :: Rest)
      = .ok (false, .object (some Module) :: Rest)
          { Vm with Heap := Vm.Heap.set Module { Object with Fiber := none },
                    Fibers := Vm.Fibers.set Fiber { Coroutine with Caller := Vm.Fiber },
                    Fiber := some Fiber } := by
  unfold CkpModuleRun
  simp [hM, hF, hC, hfr, herr, CkVm.storeModule, CkVm.storeFiber, CK_IS_NULL, CkNullValue]

theorem CK_IS_NULL_iff (Value : CkValue) : CK_IS_NULL Value = true ↔ Value = CkNullValue := by
  cases Value <;> simp [CK_IS_NULL, CkNullValue]

/-- A module whose pending fiber fails the assertion: `run` stops there, in
the state it was called in. -/
theorem CkpModuleRun_assert_fails (Vm : CkVm) (Module Fiber : Nat) (Object : CkModule)
    (Coroutine : CkFiber) (Rest : List CkValue)
    (hM : Vm.Heap[Module]? = some Object) (hF : Object.Fiber = some Fiber)
    (hC : Vm.Fibers[Fiber]? = some Coroutine)
    (hbad : Coroutine.FrameCount = 0 ∨ Coroutine.Error ≠ CkNullValue) :
    CkpModuleRun Vm (.object (some Module) :: Rest) = .fault .assertion Vm := by
  unfold CkpModuleRun
  have hcond : ¬ (Coroutine.FrameCount ≠ 0 ∧ CK_IS_NULL Coroutine.Error = true) := by
    rw [CK_IS_NULL_iff]
    rintro ⟨h1, h2⟩
    rcases hbad with h | h
    · exact h1 h
    · exact h h2
  simp only [List.head?_cons, hM, hF, hC, if_neg hcond]

/-! ## The module primitives `get` and `__str` -/

theorem CkpStringFormat_name_path (Name Path : String) :
    CkpStringFormat "<module \"$\" at \"$\">" [Name, Path]
      = .string ("<module \"" ++ Name ++ "\" at \"" ++ Path ++ "\">") := by
  unfold CkpStringFormat
  congr 1
  apply String.ext
  simp [CkFormatChars]

theorem CkpStringFormat_name (Name : String) :
    CkpStringFormat "<module \"$\">" [Name] = .string ("<module \"" ++ Name ++ "\">") := by
  unfold CkpStringFormat
  apply congrArg
  apply String.ext
  simp [CkFormatChars]

/-! ## Seeding of a new module -/

theorem CkpDefineVariable_new (Defined : List (String × CkValue)) (Name : String)
    (Value : CkValue) (h : Name ∉ Defined.map Prod.fst) :
    CkpDefineVariable Defined Name Value = Defined ++ [(Name, Value)] := by
  induction Defined with
  | nil => rfl
  | cons Variable Rest ih =>
    obtain ⟨Name1, Value1⟩ := Variable
    simp only [List.map_cons, List.mem_cons, not_or] at h
    have hne : ¬ Name1 = Name := fun heq => h.1 heq.symm
    simp [CkpDefineVariable, hne, ih h.2]

theorem CkSeedVariables_distinct (Core : List (String × CkValue)) :
    ∀ Start : List (String × CkValue), (Start.map Prod.fst ++ Core.map Prod.fst).Nodup →
      CkSeedVariables Start Core = Start ++ Core := by
  induction Core with
  | nil => intro Start _; simp [CkSeedVariables]
  | cons Variable Rest ih =>
    intro Start h
    obtain ⟨Name, Value⟩ := Variable
    have hnew : Name ∉ Start.map Prod.fst := by
      intro hmem
      rw [List.nodup_append] at h
      exact h.2.2 hmem (by simp)
    have hstep : CkSeedVariables Start ((Name, Value) :: Rest)
        = CkSeedVariables (CkpDefineVariable Start Name Value) Rest := by
      simp [CkSeedVariables]
    rw [hstep, CkpDefineVariable_new Start Name Value hnew]
    rw [ih (Start ++ [(Name, Value)]) (by simpa [List.append_assoc] using h)]
    simp

theorem CK_STRING_VALUE_ne_null (Name : Option String) : CK_STRING_VALUE Name ≠ CkNullValue := by
  cases Name <;> simp [CK_STRING_VALUE, CkNullValue]

/-- With the core module registered and present, `CkpModuleCreate` either
fails to allocate, leaving the registry as it was, or returns the new module,
whose variables are exactly the seeding of the empty namespace with the
variables of the core module. -/
theorem CkpModuleCreate_seeded (Vm : CkVm) (Name Path : Option String) (CoreModule : Nat)
    (Core : CkModule) (hcore : CkpModuleGet Vm CkNullValue = some CoreModule)
    (hC : Vm.Heap[CoreModule]? = some Core) :
    (∃ Rest Garbage, CkpModuleCreate Vm Name Path
        = .ok none { Vm with Memory := Rest, Heap := Vm.Heap ++ Garbage }) ∨
    (∃ Rest, CkpModuleCreate Vm Name Path
        = .ok (some Vm.Heap.length)
            { Vm with Memory := Rest,
                      Heap := Vm.Heap ++ [{ CkZeroModule Name Path with
                                              Variables := CkSeedVariables [] Core.Variables }],
                      Modules := CkpDictSet Vm.Modules (CK_STRING_VALUE Name) Vm.Heap.length }) := by
  have hlt : CoreModule < Vm.Heap.length := by
    rcases List.getElem?_eq_some.mp hC with ⟨hlt, _⟩
    exact hlt
  unfold CkpModuleCreate
  rcases CkpModuleAllocate_cases Vm Name Path with ⟨Rest, Garbage, _, h⟩ | ⟨Rest, h⟩
  · left; exact ⟨Rest, Garbage, by rw [h]⟩
  · right
    refine ⟨Rest, ?_⟩
    rw [h]
    have hget : CkpModuleGet
        { Vm with Memory := Rest, Heap := Vm.Heap ++ [CkZeroModule Name Path],
                  Modules := CkpDictSet Vm.Modules (CK_STRING_VALUE Name) Vm.Heap.length }
        CkNullValue = some CoreModule := by
      rw [CkpModuleGet_eq_some_iff] at hcore ⊢
      simp only []
      rw [CkpDictGet_CkpDictSet_other _ _ _ _ (CK_STRING_VALUE_ne_null Name)]
      exact hcore
    have hheap : (Vm.Heap ++ [CkZeroModule Name Path])[CoreModule]? = some Core := by
      rw [List.getElem?_append_left hlt]
      exact hC
    simp only [hget, hheap]
    rw [CkpDefineModuleVariable_fold Vm.Heap.length Core.Variables _ Vm.Heap
      (CkZeroModule Name Path) rfl rfl]
    rfl

/-! ## The compile request of the source path -/

/-- The second half of the source path asks the compiler exactly once, for
the module and the text it was given, however it ends. -/
theorem CkpModuleLoadSourceCompile_requests (Env : CkEnvironment) (Vm : CkVm) (Module : Nat)
    (Source : String) :
    (CkpModuleLoadSourceCompile Env Vm Module Source).finalVm.CompileRequests
      = Vm.CompileRequests ++ [(Module, Source)] := by
  unfold CkpModuleLoadSourceCompile CkpCompile
  cases hF : Env.Compile Vm Module Source with
  | none => rfl
  | some Function =>
    simp only []
    obtain ⟨R1, hcl | hcl⟩ := CkpClosureCreate_cases
      { Vm with CompileRequests := Vm.CompileRequests ++ [(Module, Source)] } Function
    · rw [hcl]; rfl
    · rw [hcl]
      simp only []
      obtain ⟨R2, hfb | hfb⟩ := CkpFiberCreate_cases
        { Vm with Memory := R1,
                  CompileRequests := Vm.CompileRequests ++ [(Module, Source)] }
        (.block Function)
      · rw [hfb]
        cases hM : Vm.Heap[Module]? <;> simp [CkVm.storeModule, hM, CkOutcome.finalVm]
      · rw [hfb]
        cases hM : Vm.Heap[Module]? <;> simp [CkVm.storeModule, hM, CkOutcome.finalVm]

/-! ## The load in terms of the creation of the module -/

theorem CkCString_of_no_nul (Text : String) (h : Char.ofNat 0 ∉ Text.data) :
    CkCString Text = Text := by
  unfold CkCString
  have hall : Text.data.takeWhile (fun Character => decide (Character ≠ Char.ofNat 0))
      = Text.data := by
    rw [List.takeWhile_eq_self_iff]
    intro Character hmem
    simp only [decide_eq_true_eq]
    intro heq
    exact h (heq ▸ hmem)
  rw [hall]

theorem CkpModuleLoadCreate_cases (Vm : CkVm) (Name Path : String) :
    (∃ Rest Garbage, (∀ Object ∈ Garbage, CkIdle Object) ∧ CkpModuleLoadCreate Vm Name Path
        = .ok none { Vm with LoadRequests := Vm.LoadRequests ++ [Name], Memory := Rest,
                             Heap := Vm.Heap ++ Garbage }) ∨
    (∃ Rest PathString, CkpModuleLoadCreate Vm Name Path
        = .fault .invalidPointer
            { Vm with LoadRequests := Vm.LoadRequests ++ [Name], Memory := Rest,
                      Heap := Vm.Heap ++ [CkZeroModule (some Name) PathString],
                      Modules := CkpDictSet Vm.Modules (.string Name) Vm.Heap.length }) ∨
    (∃ Rest Variables PathString, CkpModuleLoadCreate Vm Name Path
        = .ok (some Vm.Heap.length)
            { Vm with LoadRequests := Vm.LoadRequests ++ [Name], Memory := Rest,
                      Heap := Vm.Heap ++ [{ CkZeroModule (some Name) PathString with
                                              Variables := Variables }],
                      Modules := CkpDictSet Vm.Modules (.string Name) Vm.Heap.length }) := by
  obtain ⟨PathValue, Rest0, hp⟩ :=
    CkpModuleLoadPath_cases { Vm with LoadRequests := Vm.LoadRequests ++ [Name] } Path
  unfold CkpModuleLoadCreate
  simp only [hp]
  rcases CkpModuleCreate_cases
      { Vm with LoadRequests := Vm.LoadRequests ++ [Name], Memory := Rest0 }
      (some Name) (CK_AS_STRING PathValue) with
    ⟨Rest, Garbage, hG, hc⟩ | ⟨Rest, hc⟩ | ⟨Rest, Variables, hc⟩
  · left; exact ⟨Rest, Garbage, hG, by rw [hc]⟩
  · right; left; exact ⟨Rest, _, by rw [hc]; rfl⟩
  · right; right; exact ⟨Rest, Variables, _, by rw [hc]; rfl⟩

/-- A load answered with source text, in terms of the creation of the module
and of the second half of the source path. -/
theorem CkpModuleLoad_source_of_create (Env : CkEnvironment) (Vm : CkVm) (Name : String)
    (LoadModule : CkVm → String → CkLoadModuleResult) (Path Text : String)
    (hreg : CkpModuleGet Vm (.string Name) = none)
    (hcfg : Env.Configuration.LoadModule = some LoadModule)
    (hst : LoadModule Vm Name = .CkLoadModuleSource Path Text) :
    CkpModuleLoad Env Vm (.string Name)
      = match CkpModuleLoadCreate Vm Name Path with
        | .fault Fault Vm1 => .fault Fault Vm1
        | .ok none Vm1 =>
          .ok CkNullValue
            (CkpRuntimeError Vm1 "CompileError" ("Module compile error: " ++ CkCString Name))
        | .ok (some Module) Vm1 =>
          match CkpModuleLoadSourceCompile Env Vm1 Module Text with
          | .fault Fault Vm2 => .fault Fault Vm2
          | .ok none Vm2 =>
            .ok CkNullValue
              (CkpRuntimeError Vm2 "CompileError" ("Module compile error: " ++ CkCString Name))
          | .ok (some Returned) Vm2 => .ok (.object (some Returned)) Vm2 := by
  rw [CkpModuleLoad_unregistered Env Vm Name LoadModule hreg hcfg, hst]
  obtain ⟨PathValue, Rest0, hp⟩ :=
    CkpModuleLoadPath_cases { Vm with LoadRequests := Vm.LoadRequests ++ [Name] } Path
  have hreg1 : CkpModuleGet { Vm with LoadRequests := Vm.LoadRequests ++ [Name], Memory := Rest0 }
      (.string Name) = none := by
    rw [← hreg]; exact CkpModuleGet_of_Modules_eq _ _ _ rfl
  unfold CkpModuleLoadSwitch CkpModuleLoadCreate CkpModuleLoadSource
  simp only [hp, hreg1, CK_AS_STRING_string, CkPathString_eq]
  cases hC : CkpModuleCreate
      { Vm with LoadRequests := Vm.LoadRequests ++ [Name], Memory := Rest0 }
      (some Name) (CK_AS_STRING PathValue) with
  | fault Fault Vm1 => rfl
  | ok Created Vm1 =>
    cases Created with
    | none => rfl
    | some Module =>
      simp only []
      cases CkpModuleLoadSourceCompile Env Vm1 Module Text with
      | fault Fault Vm2 => rfl
      | ok Returned Vm2 => cases Returned <;> rfl

/-- A load answered with a foreign library, in terms of the creation of the
module and of the construction of the entry closure. -/
theorem CkpModuleLoad_foreign_of_create (Env : CkEnvironment) (Vm : CkVm) (Name : String)
    (LoadModule : CkVm → String → CkLoadModuleResult) (Path : String) (Handle : Option Nat)
    (Entry : Nat)
    (hreg : CkpModuleGet Vm (.string Name) = none)
    (hcfg : Env.Configuration.LoadModule = some LoadModule)
    (hst : LoadModule Vm Name = .CkLoadModuleForeign Path Handle Entry) :
    CkpModuleLoad Env Vm (.string Name)
      = match CkpModuleLoadCreate Vm Name Path with
        | .fault Fault Vm1 => .fault Fault Vm1
        | .ok none Vm1 => .ok (.object none) (CkpModuleLoadForeignFailed Env Vm1 Handle)
        | .ok (some Module) Vm1 =>
          match CkpClosureCreateForeign (CkpStringCreate Vm1 CK_MODULE_ENTRY_NAME).2 Entry Module
              (CkpModuleLoadForeignName Vm1) 0 with
          | (none, Vm3) => .ok (.object none) (CkpModuleLoadForeignFailed Env Vm3 Handle)
          | (some Closure, Vm3) =>
            match Vm3.storeModule Module
                (fun Object => { Object with EntryFunction := some Closure }) with
            | none => .fault .invalidPointer Vm3
            | some Vm4 => .ok (.object (some Module)) Vm4 := by
  rw [CkpModuleLoad_unregistered Env Vm Name LoadModule hreg hcfg, hst]
  obtain ⟨PathValue, Rest0, hp⟩ :=
    CkpModuleLoadPath_cases { Vm with LoadRequests := Vm.LoadRequests ++ [Name] } Path
  have hreg1 : CkpModuleGet { Vm with LoadRequests := Vm.LoadRequests ++ [Name], Memory := Rest0 }
      (.string Name) = none := by
    rw [← hreg]; exact CkpModuleGet_of_Modules_eq _ _ _ rfl
  unfold CkpModuleLoadSwitch CkpModuleLoadCreate CkpModuleLoadForeign
  simp only [hp, hreg1, CK_AS_STRING_string, CkPathString_eq]
  cases hC : CkpModuleCreate
      { Vm with LoadRequests := Vm.LoadRequests ++ [Name], Memory := Rest0 }
      (some Name) (CK_AS_STRING PathValue) with
  | fault Fault Vm1 => rfl
  | ok Created Vm1 =>
    cases Created with
    | none => rfl
    | some Module =>
      simp only [CkpModuleLoadForeignName, CK_OBJECT_VALUE]
      cases hcl : CkpClosureCreateForeign (CkpStringCreate Vm1 CK_MODULE_ENTRY_NAME).2 Entry Module
          (if (!CK_IS_NULL (CkpStringCreate Vm1 CK_MODULE_ENTRY_NAME).1) = true then
            CK_AS_STRING (CkpStringCreate Vm1 CK_MODULE_ENTRY_NAME).1 else none) 0 with
      | mk Closure Vm3 =>
        cases Closure with
        | none => rfl
        | some Built =>
          simp only []
          cases Vm3.storeModule Module
              (fun Object => { Object with EntryFunction := some Built }) <;> rfl

/-! ## Claims about the loader -/

/-- C1 (idempotent resolution).  When a call of `CkpModuleLoad` returns a
module, whether it was found in the registry or built from the `Source` or the
`Foreign` answer of the host, that module is registered under the name in the
state reached, and an immediately following `CkpModuleLoad` of the same name
returns the identical module and leaves the state as it is; in particular the
host load callback is not invoked again. -/
theorem CkpModuleLoad_idempotent (Env : CkEnvironment) (Vm Vm1 : CkVm) (ModuleName : CkValue)
    (Module : Nat) (h : CkpModuleLoad Env Vm ModuleName = .ok (.object (some Module)) Vm1) :
    CkpModuleGet Vm1 ModuleName = some Module ∧
    CkpModuleLoad Env Vm1 ModuleName = .ok (.object (some Module)) Vm1 ∧
    (CkpModuleLoad Env Vm1 ModuleName).finalVm.LoadRequests = Vm1.LoadRequests := by
  have hreg := CkpModuleLoad_ok_registers Env Vm Vm1 ModuleName Module h
  cases ModuleName with
  | string Name =>
    have h2 := CkpModuleLoad_registered Env Vm1 Name Module hreg
    exact ⟨hreg, h2, by rw [h2]; rfl⟩
  | _ => simp [CkpModuleLoad, CK_AS_STRING] at h

/-- C1, on the bootstrap machine with a host that answers every request with
source text: the first load of `geo` asks the host once and returns module 1,
the second returns module 1 again without asking. -/
theorem CkpModuleLoad_idempotent_witness :
    (CkpModuleLoad (CkHostAnswering (.CkLoadModuleSource "/lib/geo.ck" "var x = 1;")) CkBootVm
        (.string "geo")).finalVm.LoadRequests = ["geo"] ∧
    CkpModuleGet (CkpModuleLoad (CkHostAnswering (.CkLoadModuleSource "/lib/geo.ck" "var x = 1;"))
        CkBootVm (.string "geo")).finalVm (.string "geo") = some 1 ∧
    CkpModuleLoad (CkHostAnswering (.CkLoadModuleSource "/lib/geo.ck" "var x = 1;"))
        (CkpModuleLoad (CkHostAnswering (.CkLoadModuleSource "/lib/geo.ck" "var x = 1;")) CkBootVm
          (.string "geo")).finalVm (.string "geo")
      = .ok (.object (some 1))
          (CkpModuleLoad (CkHostAnswering (.CkLoadModuleSource "/lib/geo.ck" "var x = 1;")) CkBootVm
            (.string "geo")).finalVm ∧
    (CkpModuleLoad (CkHostAnswering (.CkLoadModuleSource "/lib/geo.ck" "var x = 1;"))
        (CkpModuleLoad (CkHostAnswering (.CkLoadModuleSource "/lib/geo.ck" "var x = 1;")) CkBootVm
          (.string "geo")).finalVm (.string "geo")).finalVm.LoadRequests
      = (CkpModuleLoad (CkHostAnswering (.CkLoadModuleSource "/lib/geo.ck" "var x = 1;")) CkBootVm
          (.string "geo")).finalVm.LoadRequests :=
  ⟨by decide,
    CkpModuleLoad_idempotent (CkHostAnswering (.CkLoadModuleSource "/lib/geo.ck" "var x = 1;"))
      CkBootVm _ (.string "geo") 1 rfl⟩

/-- C2 (host outcome OutOfMemory), evaluated on the code.  The test of the
`CkLoadModuleNoMemory` arm is `!CK_IS_NULL(Vm->Fiber->Error)`: on the bootstrap
machine, where no error is pending, the load of `big` returns the null value
and reports nothing at all, so no `MemoryError` is raised; on the machine
where an error is already pending a `MemoryError` is reported on top of it and
replaces the pending error. -/
theorem CkpModuleLoad_no_memory_inverted :
    CkpModuleLoad (CkHostAnswering .CkLoadModuleNoMemory) CkBootVm (.string "big")
      = .ok CkNullValue { CkBootVm with LoadRequests := ["big"] } ∧
    (CkpModuleLoad (CkHostAnswering .CkLoadModuleNoMemory) CkBootVm
      (.string "big")).finalVm.Raised = [] ∧
    (CkpModuleLoad (CkHostAnswering .CkLoadModuleNoMemory) CkPendingErrorVm
      (.string "big")).finalVm.Raised = [("MemoryError", "Allocation failure")] ∧
    (CkpModuleLoad (CkHostAnswering .CkLoadModuleNoMemory) CkPendingErrorVm
      (.string "big")).finalVm.Fibers
      = [{ Frames := [], Error := .exception "MemoryError" "Allocation failure", Caller := none }] :=
  ⟨rfl, rfl, rfl, rfl⟩

/-- C4 (native handle ownership), evaluated on the code.  On the bootstrap
machine `CkpModuleLoadForeign` called for `native` with library handle 7
succeeds and returns module 1, whose entry function is set but whose handle
field is still `NULL`: the routine never stores its `Handle` argument.
Destroying the module therefore never invokes the unload callback. -/
theorem CkpModuleLoadForeign_drops_handle :
    (∃ Vm1 Object,
      CkpModuleLoadForeign CkBootVm (.string "native") CkNullValue (some 7) 42 = .ok (some 1) Vm1 ∧
      Vm1.Heap[1]? = some Object ∧
      Object.EntryFunction = some (.foreign 42 1 (some "CkModuleInit") 0) ∧
      Object.Handle = none ∧
      CkpModuleDestroy (CkHostAnswering .CkLoadModuleNotFound) Vm1 1 = .ok () Vm1 ∧
      (CkpModuleDestroy (CkHostAnswering .CkLoadModuleNotFound) Vm1 1).finalVm.Unloaded = []) :=
  ⟨_, _, rfl, rfl, rfl, rfl, rfl, rfl⟩

/-- C5 (load returns the null value on every failure), evaluated on the code.
On the bootstrap machine, when the host answers `CkLoadModuleNotSupported` the
loader reports `ImportError("Module loading not supported")` and then leaves
the switch by `break`, so it returns the object value built from the `NULL`
module pointer, which is not the null value.  The same happens for a static
error message, for an owned error message, and when construction of a foreign
module fails. -/
theorem CkpModuleLoad_failure_returns_object :
    (∃ Vm1, CkpModuleLoad (CkHostAnswering .CkLoadModuleNotSupported) CkBootVm (.string "geo")
        = .ok (.object none) Vm1 ∧
      Vm1.Raised = [("ImportError", "Module loading not supported")]) ∧
    CkValue.object none ≠ CkNullValue ∧
    (∃ Vm1, CkpModuleLoad (CkHostAnswering (.CkLoadModuleStaticError "denied")) CkBootVm
        (.string "geo") = .ok (.object none) Vm1 ∧ Vm1.Raised = [("ImportError", "denied")]) ∧
    (∃ Vm1, CkpModuleLoad (CkHostAnswering (.CkLoadModuleFreeError "denied")) CkBootVm
        (.string "geo") = .ok (.object none) Vm1 ∧ Vm1.Raised = [("ImportError", "denied")]) ∧
    (∃ Vm1, CkpModuleLoad (CkHostAnswering (.CkLoadModuleForeign "" (some 7) 42)) CkNoClosureVm
        (.string "geo") = .ok (.object none) Vm1 ∧ Vm1.Raised = []) :=
  ⟨⟨_, rfl, rfl⟩, by decide, ⟨_, rfl, rfl⟩, ⟨_, rfl, rfl⟩, ⟨_, rfl, rfl⟩⟩

/-- C3 as stated fails.  On the bootstrap machine with an allocator that
refuses the entry closure, the host answers `Foreign` with library handle 7:
`CkpModuleLoadForeign` returns `NULL` and the unload callback is invoked once
with 7, yet the module created for the attempt is still registered under the
name `native`. -/
theorem CkpModuleLoad_foreign_failure_stays_registered :
    (∃ Vm1, CkpModuleLoadForeign { CkNoClosureVm with LoadRequests := ["native"] }
        (.string "native") CkNullValue (some 7) 42 = .ok none Vm1) ∧
    (∃ Vm1, CkpModuleLoad (CkHostAnswering (.CkLoadModuleForeign "" (some 7) 42)) CkNoClosureVm
        (.string "native") = .ok (.object none) Vm1 ∧
      Vm1.Unloaded = [7] ∧
      CkpModuleGet Vm1 (.string "native") = some 1 ∧
      ¬ CkpModuleGet Vm1 (.string "native") = none) :=
  ⟨⟨_, rfl⟩, ⟨_, rfl, rfl, rfl, by decide⟩⟩

/-- C3, amended.  With the unload callback configured, a name that is not
registered and a host that answers `Foreign` with a library handle that is not
`NULL`: when construction of the module fails (the loader returns the object
value of the `NULL` module) the unload callback has been invoked exactly once,
with that handle, and `CkpModuleCreate` has returned.  When `CkpModuleCreate`
returned `NULL` (module allocation failed) the registry is as it was and no
module is registered under the name.  When `CkpModuleCreate` returned a
module, it is `CkpClosureCreateForeign` that returned `NULL`, and the module
created, at the first free address, is registered under the name, with no
entry function, no fiber and no handle. -/
theorem CkpModuleLoad_foreign_failure (Env : CkEnvironment) (Vm Vm1 : CkVm) (Name : String)
    (LoadModule : CkVm → String → CkLoadModuleResult) (Path : String) (Library Entry : Nat)
    (hU : Env.Configuration.UnloadForeignModule = true)
    (hreg : CkpModuleGet Vm (.string Name) = none)
    (hcfg : Env.Configuration.LoadModule = some LoadModule)
    (hst : LoadModule Vm Name = .CkLoadModuleForeign Path (some Library) Entry)
    (h : CkpModuleLoad Env Vm (.string Name) = .ok (.object none) Vm1) :
    Vm1.Unloaded = Vm.Unloaded ++ [Library] ∧
    ((∃ Failed, CkpModuleLoadCreate Vm Name Path = .ok none Failed) ∨
      (∃ Module Created, CkpModuleLoadCreate Vm Name Path = .ok (some Module) Created)) ∧
    (∀ Failed, CkpModuleLoadCreate Vm Name Path = .ok none Failed →
      Vm1.Modules = Vm.Modules ∧ CkpModuleGet Vm1 (.string Name) = none) ∧
    (∀ Module Created, CkpModuleLoadCreate Vm Name Path = .ok (some Module) Created →
      (CkpClosureCreateForeign (CkpStringCreate Created CK_MODULE_ENTRY_NAME).2 Entry Module
          (CkpModuleLoadForeignName Created) 0).1 = none ∧
      Module = Vm.Heap.length ∧
      ∃ Object, Vm1.Modules = Vm.Modules ++ [(.string Name, Module)] ∧
        CkpModuleGet Vm1 (.string Name) = some Module ∧
        Vm1.Heap[Module]? = some Object ∧
        Object.Name = some Name ∧ Object.EntryFunction = none ∧ Object.Fiber = none ∧
        Object.Handle = none) := by
  rw [CkpModuleLoad_foreign_of_create Env Vm Name LoadModule Path (some Library) Entry
    hreg hcfg hst] at h
  have habs : CkpDictGet Vm.Modules (.string Name) = .undefined :=
    (CkpModuleGet_eq_none_iff Vm _).mp hreg
  rcases CkpModuleLoadCreate_cases Vm Name Path with
    ⟨Rest, Garbage, _, hc⟩ | ⟨Rest, PathString, hc⟩ | ⟨Rest, Variables, PathString, hc⟩
  · rw [hc] at h
    simp only [CkOutcome.ok.injEq, true_and] at h
    subst h
    refine ⟨by simp [CkpModuleLoadForeignFailed, hU, CkUnloadForeignModule],
      Or.inl ⟨_, hc⟩, ?_, ?_⟩
    · intro Failed _
      refine ⟨by simp [CkpModuleLoadForeignFailed, hU, CkUnloadForeignModule], ?_⟩
      rw [← hreg]
      exact CkpModuleGet_of_Modules_eq _ _ _
        (by simp [CkpModuleLoadForeignFailed, hU, CkUnloadForeignModule])
    · intro Module Created hC
      rw [hc] at hC
      cases hC
  · rw [hc] at h; cases h
  · rw [hc] at h
    simp only [] at h
    obtain ⟨R1, hS⟩ : ∃ R1, (CkpStringCreate
        { Vm with LoadRequests := Vm.LoadRequests ++ [Name], Memory := Rest,
                  Heap := Vm.Heap ++ [{ CkZeroModule (some Name) PathString with
                                          Variables := Variables }],
                  Modules := CkpDictSet Vm.Modules (.string Name) Vm.Heap.length }
        CK_MODULE_ENTRY_NAME).2
        = { Vm with LoadRequests := Vm.LoadRequests ++ [Name], Memory := R1,
                    Heap := Vm.Heap ++ [{ CkZeroModule (some Name) PathString with
                                            Variables := Variables }],
                    Modules := CkpDictSet Vm.Modules (.string Name) Vm.Heap.length } := by
      obtain ⟨R1, hs | hs⟩ := CkpStringCreate_cases
        { Vm with LoadRequests := Vm.LoadRequests ++ [Name], Memory := Rest,
                  Heap := Vm.Heap ++ [{ CkZeroModule (some Name) PathString with
                                          Variables := Variables }],
                  Modules := CkpDictSet Vm.Modules (.string Name) Vm.Heap.length }
        CK_MODULE_ENTRY_NAME
      · exact ⟨R1, by rw [hs]⟩
      · exact ⟨R1, by rw [hs]⟩
    rw [hS] at h
    obtain ⟨R2, hcl | hcl⟩ := CkpClosureCreateForeign_cases
        { Vm with LoadRequests := Vm.LoadRequests ++ [Name], Memory := R1,
                  Heap := Vm.Heap ++ [{ CkZeroModule (some Name) PathString with
                                          Variables := Variables }],
                  Modules := CkpDictSet Vm.Modules (.string Name) Vm.Heap.length }
        Entry Vm.Heap.length
        (CkpModuleLoadForeignName
          { Vm with LoadRequests := Vm.LoadRequests ++ [Name], Memory := Rest,
                    Heap := Vm.Heap ++ [{ CkZeroModule (some Name) PathString with
                                            Variables := Variables }],
                    Modules := CkpDictSet Vm.Modules (.string Name) Vm.Heap.length }) 0
    · rw [hcl] at h
      simp only [CkOutcome.ok.injEq, true_and] at h
      subst h
      refine ⟨by simp [CkpModuleLoadForeignFailed, hU, CkUnloadForeignModule],
        Or.inr ⟨_, _, hc⟩, ?_, ?_⟩
      · intro Failed hC
        rw [hc] at hC
        cases hC
      · intro Module Created hC
        rw [hc] at hC
        simp only [CkOutcome.ok.injEq, Option.some.injEq] at hC
        obtain ⟨hM, hV⟩ := hC
        subst hM
        subst hV
        refine ⟨by rw [hS, hcl], rfl,
          { CkZeroModule (some Name) PathString with Variables := Variables }, ?_, ?_, ?_,
          rfl, rfl, rfl, rfl⟩
        · simp [CkpModuleLoadForeignFailed, hU, CkUnloadForeignModule,
            CkpDictSet_absent _ _ _ habs]
        · rw [CkpModuleGet_eq_some_iff]
          simp [CkpModuleLoadForeignFailed, hU, CkUnloadForeignModule,
            CkpDictGet_CkpDictSet_self]
        · simp [CkpModuleLoadForeignFailed, hU, CkUnloadForeignModule]
    · rw [hcl] at h
      simp [CkVm.storeModule, CK_OBJECT_VALUE] at h

/-- C3 amended, on the machine whose allocator refuses the entry closure:
`CkpModuleCreate` returns module 1, `CkpClosureCreateForeign` returns `NULL`,
the library with handle 7 is unloaded once and module 1, which has neither
entry function nor handle, stays registered under `native`. -/
theorem CkpModuleLoad_foreign_failure_witness :
    CkpModuleLoad CkForeignHost CkNoClosureVm (.string "native")
      = .ok (.object none) CkNoClosureLoaded ∧
    (∃ Created, CkpModuleLoadCreate CkNoClosureVm "native" "" = .ok (some 1) Created) ∧
    CkNoClosureLoaded.Unloaded = [7] ∧
    CkpModuleGet CkNoClosureLoaded (.string "native") = some 1 ∧
    (CkNoClosureLoaded.Unloaded = CkNoClosureVm.Unloaded ++ [7] ∧
    ((∃ Failed, CkpModuleLoadCreate CkNoClosureVm "native" "" = .ok none Failed) ∨
      (∃ Module Created,
        CkpModuleLoadCreate CkNoClosureVm "native" "" = .ok (some Module) Created)) ∧
    (∀ Failed, CkpModuleLoadCreate CkNoClosureVm "native" "" = .ok none Failed →
      CkNoClosureLoaded.Modules = CkNoClosureVm.Modules ∧
      CkpModuleGet CkNoClosureLoaded (.string "native") = none) ∧
    (∀ Module Created,
      CkpModuleLoadCreate CkNoClosureVm "native" "" = .ok (some Module) Created →
      (CkpClosureCreateForeign (CkpStringCreate Created CK_MODULE_ENTRY_NAME).2 42 Module
          (CkpModuleLoadForeignName Created) 0).1 = none ∧
      Module = CkNoClosureVm.Heap.length ∧
      ∃ Object, CkNoClosureLoaded.Modules = CkNoClosureVm.Modules ++ [(.string "native", Module)] ∧
        CkpModuleGet CkNoClosureLoaded (.string "native") = some Module ∧
        CkNoClosureLoaded.Heap[Module]? = some Object ∧
        Object.Name = some "native" ∧ Object.EntryFunction = none ∧ Object.Fiber = none ∧
        Object.Handle = none)) :=
  ⟨rfl, ⟨_, rfl⟩, rfl, rfl,
    CkpModuleLoad_foreign_failure CkForeignHost CkNoClosureVm CkNoClosureLoaded "native"
      (fun _ _ => .CkLoadModuleForeign "" (some 7) 42) "" 7 42 rfl rfl rfl rfl rfl⟩

/-- C6 (unresolvable name).  For a name that is not registered and a host
that answers `NotFound`, `CkpModuleLoad` returns the null value, reports
`ImportError("Module not found")` and nothing else, asks the host once, and
leaves the registry as it was, so the name is still not registered.  A
subsequent `CkpModuleLoad` of the same name asks the host again, however that
second load ends. -/
theorem CkpModuleLoad_not_found (Env : CkEnvironment) (Vm : CkVm) (Name : String)
    (LoadModule : CkVm → String → CkLoadModuleResult)
    (hreg : CkpModuleGet Vm (.string Name) = none)
    (hcfg : Env.Configuration.LoadModule = some LoadModule)
    (hst : LoadModule Vm Name = .CkLoadModuleNotFound) :
    ∃ Vm1, CkpModuleLoad Env Vm (.string Name) = .ok CkNullValue Vm1 ∧
      Vm1.Raised = Vm.Raised ++ [("ImportError", "Module not found")] ∧
      Vm1.Modules = Vm.Modules ∧
      CkpModuleGet Vm1 (.string Name) = none ∧
      Vm1.LoadRequests = Vm.LoadRequests ++ [Name] ∧
      (CkpModuleLoad Env Vm1 (.string Name)).finalVm.LoadRequests
        = Vm.LoadRequests ++ [Name] ++ [Name] := by
  refine ⟨CkpRuntimeError { Vm with LoadRequests := Vm.LoadRequests ++ [Name] }
    "ImportError" "Module not found", ?_, ?_, ?_, ?_, ?_, ?_⟩
  · rw [CkpModuleLoad_unregistered Env Vm Name LoadModule hreg hcfg, hst]
    rfl
  · rw [CkpRuntimeError_Raised]
  · rw [CkpRuntimeError_Modules]
  · rw [← hreg]
    exact CkpModuleGet_of_Modules_eq _ _ _ (CkpRuntimeError_Modules _ _ _)
  · rw [CkpRuntimeError_LoadRequests]
  · rw [CkpModuleLoad_asks_host Env _ Name LoadModule
      (by rw [← hreg]; exact CkpModuleGet_of_Modules_eq _ _ _ (CkpRuntimeError_Modules _ _ _))
      hcfg, CkpRuntimeError_LoadRequests]

/-- C6 on the bootstrap machine: `does.not.exist` with a host that reports not
found. -/
theorem CkpModuleLoad_not_found_witness :
    ∃ Vm1, CkpModuleLoad (CkHostAnswering .CkLoadModuleNotFound) CkBootVm
        (.string "does.not.exist") = .ok CkNullValue Vm1 ∧
      Vm1.Raised = CkBootVm.Raised ++ [("ImportError", "Module not found")] ∧
      Vm1.Modules = CkBootVm.Modules ∧
      CkpModuleGet Vm1 (.string "does.not.exist") = none ∧
      Vm1.LoadRequests = CkBootVm.LoadRequests ++ ["does.not.exist"] ∧
      (CkpModuleLoad (CkHostAnswering .CkLoadModuleNotFound) Vm1
        (.string "does.not.exist")).finalVm.LoadRequests
        = CkBootVm.LoadRequests ++ ["does.not.exist"] ++ ["does.not.exist"] :=
  CkpModuleLoad_not_found (CkHostAnswering .CkLoadModuleNotFound) CkBootVm "does.not.exist"
    (fun _ _ => .CkLoadModuleNotFound) rfl rfl rfl

/-- C7 as stated fails.  On the bootstrap machine the host answers the request
for `bad` with a text the compiler rejects: the load returns the null value and
reports `CompileError`, and the registry afterwards holds the module created
for the attempt under `bad`, so it is not the registry the call started
with. -/
theorem CkpModuleLoad_compile_error_registers :
    ∃ Vm1, CkpModuleLoad CkBadSourceHost CkBootVm (.string "bad") = .ok CkNullValue Vm1 ∧
      Vm1.CompileRequests = [(1, "var x = ;")] ∧
      Vm1.Raised = [("CompileError", "Module compile error: bad")] ∧
      Vm1.Modules = [(CkNullValue, 0), (.string "bad", 1)] ∧
      CkpModuleGet Vm1 (.string "bad") = some 1 ∧
      ¬ Vm1.Modules = CkBootVm.Modules :=
  ⟨_, rfl, rfl, rfl, rfl, rfl, by decide⟩

/-- C7, amended.  For a name that is not registered and a host that answers
with source text: when the module has been created for the attempt and the
compiler, asked for that module in the state reached, rejects the text,
`CkpModuleLoad` returns the null value and reports `CompileError` for the
name; the registry afterwards is the registry before the call followed by one
entry, which binds the name to the module created for the attempt; that module
has no fiber, no entry function and no handle, and the heap is the heap before
the call followed by that module, so every module that existed before is
unchanged. -/
theorem CkpModuleLoad_compile_error (Env : CkEnvironment) (Vm AtCompile : CkVm) (Name : String)
    (LoadModule : CkVm → String → CkLoadModuleResult) (Path Text : String) (Module : Nat)
    (hreg : CkpModuleGet Vm (.string Name) = none)
    (hcfg : Env.Configuration.LoadModule = some LoadModule)
    (hst : LoadModule Vm Name = .CkLoadModuleSource Path Text)
    (hcreated : CkpModuleLoadCreate Vm Name Path = .ok (some Module) AtCompile)
    (hrej : Env.Compile AtCompile Module Text = none) :
    ∃ Vm1 Object, CkpModuleLoad Env Vm (.string Name) = .ok CkNullValue Vm1 ∧
      Vm1.Raised
        = Vm.Raised ++ [("CompileError", "Module compile error: " ++ CkCString Name)] ∧
      Vm1.CompileRequests = Vm.CompileRequests ++ [(Module, Text)] ∧
      Module = Vm.Heap.length ∧
      Vm1.Modules = Vm.Modules ++ [(.string Name, Module)] ∧
      CkpModuleGet Vm1 (.string Name) = some Module ∧
      Vm1.Heap = Vm.Heap ++ [Object] ∧
      Object.Name = some Name ∧ Object.Fiber = none ∧ Object.EntryFunction = none ∧
      Object.Handle = none := by
  have hL := CkpModuleLoad_source_of_create Env Vm Name LoadModule Path Text hreg hcfg hst
  have htail : CkpModuleLoadSourceCompile Env AtCompile Module Text
      = .ok none { AtCompile with
          CompileRequests := AtCompile.CompileRequests ++ [(Module, Text)] } := by
    unfold CkpModuleLoadSourceCompile CkpCompile
    simp only [hrej]
  rw [hcreated] at hL
  simp only [htail] at hL
  have habs : CkpDictGet Vm.Modules (.string Name) = .undefined :=
    (CkpModuleGet_eq_none_iff Vm _).mp hreg
  rcases CkpModuleLoadCreate_cases Vm Name Path with
    ⟨Rest, Garbage, _, hc⟩ | ⟨Rest, PathString, hc⟩ | ⟨Rest, Variables, PathString, hc⟩
  · rw [hc] at hcreated; cases hcreated
  · rw [hc] at hcreated; cases hcreated
  · rw [hc] at hcreated
    simp only [CkOutcome.ok.injEq, Option.some.injEq] at hcreated
    obtain ⟨hM, hV⟩ := hcreated
    subst hM
    subst hV
    refine ⟨_, { CkZeroModule (some Name) PathString with Variables := Variables }, hL,
      ?_, ?_, rfl, ?_, ?_, ?_, rfl, rfl, rfl, rfl⟩
    · rw [CkpRuntimeError_Raised]
    · rw [CkpRuntimeError_CompileRequests]
    · rw [CkpRuntimeError_Modules]
      exact CkpDictSet_absent _ _ _ habs
    · rw [CkpModuleGet_eq_some_iff, CkpRuntimeError_Modules]
      exact CkpDictGet_CkpDictSet_self _ _ _
    · rw [CkpRuntimeError_Heap]

/-- C7 amended, on the bootstrap machine with the host whose text the compiler
rejects: module 1 is created for `bad`, the compiler rejects the text for
module 1, and module 1 stays registered. -/
theorem CkpModuleLoad_compile_error_witness :
    (∃ AtCompile, CkpModuleLoadCreate CkBootVm "bad" "/lib/bad.ck" = .ok (some 1) AtCompile ∧
      CkBadSourceHost.Compile AtCompile 1 "var x = ;" = none) ∧
    ∃ Vm1 Object, CkpModuleLoad CkBadSourceHost CkBootVm (.string "bad") = .ok CkNullValue Vm1 ∧
      Vm1.Raised
        = CkBootVm.Raised ++ [("CompileError", "Module compile error: " ++ CkCString "bad")] ∧
      Vm1.CompileRequests = CkBootVm.CompileRequests ++ [(1, "var x = ;")] ∧
      1 = CkBootVm.Heap.length ∧
      Vm1.Modules = CkBootVm.Modules ++ [(.string "bad", 1)] ∧
      CkpModuleGet Vm1 (.string "bad") = some 1 ∧
      Vm1.Heap = CkBootVm.Heap ++ [Object] ∧
      Object.Name = some "bad" ∧ Object.Fiber = none ∧ Object.EntryFunction = none ∧
      Object.Handle = none :=
  ⟨⟨_, rfl, rfl⟩,
    CkpModuleLoad_compile_error CkBadSourceHost CkBootVm _ "bad"
      (fun _ _ => .CkLoadModuleSource "/lib/bad.ck" "var x = ;") "/lib/bad.ck" "var x = ;" 1
      rfl rfl rfl rfl rfl⟩

/-! ## Claims about the run primitive -/

/-- C8 (foreign single-shot).  For a module with a pending entry function and
no pending fiber, the first `run` returns `TRUE` after calling the entry
function once, with arity 1 and the module as its only argument; the heap the
entry function is called in is the heap before `run` with the entry slot of
the module emptied, so the slot is cleared before the call, and the slot is
empty in the state reached.  A second `run` calls nothing, leaves the state
(and so the active fiber) as it is, returns `TRUE` and puts the null value in
the result slot; after both runs the entry function has been called exactly
once.  The second `run` behaves so in every later state in which the two slots
of the module are still empty. -/
theorem CkpModuleRun_foreign_once (Vm : CkVm) (Module : Nat) (Object : CkModule)
    (Entry : CkClosure) (Rest : List CkValue)
    (hM : Vm.Heap[Module]? = some Object) (hF : Object.Fiber = none)
    (hE : Object.EntryFunction = some Entry) :
    ∃ Call Vm1,
      CkpModuleRun Vm (.object (some Module) :: Rest)
        = .ok (true, .object (some Module) :: Rest) Vm1 ∧
      Vm1.Called = Vm.Called ++ [Call] ∧
      Call.Closure = Entry ∧ Call.Arity = 1 ∧ Call.Arguments = [.object (some Module)] ∧
      Call.Heap = Vm.Heap.set Module { Object with EntryFunction := none } ∧
      Call.Heap[Module]? = some { Object with EntryFunction := none } ∧
      Vm1.Heap = Call.Heap ∧
      CkpModuleRun Vm1 (.object (some Module) :: Rest) = .ok (true, CkNullValue :: Rest) Vm1 ∧
      (CkpModuleRun Vm1 (.object (some Module) :: Rest)).finalVm.Called
        = Vm.Called ++ [Call] ∧
      (CkpModuleRun Vm1 (.object (some Module) :: Rest)).finalVm.Fiber = Vm1.Fiber ∧
      (∀ (Later : CkVm) (Emptied : CkModule) (Again : List CkValue),
        Later.Heap[Module]? = some Emptied → Emptied.Fiber = none →
        Emptied.EntryFunction = none →
        CkpModuleRun Later (.object (some Module) :: Again)
          = .ok (true, CkNullValue :: Again) Later) := by
  have hlt : Module < Vm.Heap.length := by
    rcases List.getElem?_eq_some.mp hM with ⟨hlt, _⟩
    exact hlt
  have hsecond : CkpModuleRun
      (CkpCallFunction
        { Vm with Heap := Vm.Heap.set Module { Object with EntryFunction := none } }
        Entry 1 (.object (some Module) :: Rest))
      (.object (some Module) :: Rest)
      = .ok (true, CkNullValue :: Rest)
          (CkpCallFunction
            { Vm with Heap := Vm.Heap.set Module { Object with EntryFunction := none } }
            Entry 1 (.object (some Module) :: Rest)) :=
    CkpModuleRun_idle _ Module { Object with EntryFunction := none } Rest
      (by simp [CkpCallFunction, hlt]) hF rfl
  refine ⟨{ Closure := Entry, Arity := 1, Arguments := [.object (some Module)],
            Heap := Vm.Heap.set Module { Object with EntryFunction := none } }, _,
    CkpModuleRun_entry Vm Module Object Entry Rest hM hF hE, ?_, rfl, rfl, rfl, rfl,
    by simp [hlt], rfl, hsecond, ?_, ?_, ?_⟩
  · simp [CkpCallFunction]
  · rw [hsecond]; simp [CkOutcome.finalVm, CkpCallFunction]
  · rw [hsecond]; rfl
  · intro Later Emptied Again hL hLF hLE
    exact CkpModuleRun_idle Later Module Emptied Again hL hLF hLE

/-- C8 on the module the foreign path built on the bootstrap machine. -/
theorem CkpModuleRun_foreign_once_witness :
    CkForeignLoaded.Heap[1]? = some CkNativeModule ∧
    ∃ Call Vm1,
      CkpModuleRun CkForeignLoaded (.object (some 1) :: [])
        = .ok (true, .object (some 1) :: []) Vm1 ∧
      Vm1.Called = CkForeignLoaded.Called ++ [Call] ∧
      Call.Closure = CkNativeEntry ∧ Call.Arity = 1 ∧ Call.Arguments = [.object (some 1)] ∧
      Call.Heap = CkForeignLoaded.Heap.set 1 { CkNativeModule with EntryFunction := none } ∧
      Call.Heap[1]? = some { CkNativeModule with EntryFunction := none } ∧
      Vm1.Heap = Call.Heap ∧
      CkpModuleRun Vm1 (.object (some 1) :: []) = .ok (true, CkNullValue :: []) Vm1 ∧
      (CkpModuleRun Vm1 (.object (some 1) :: [])).finalVm.Called
        = CkForeignLoaded.Called ++ [Call] ∧
      (CkpModuleRun Vm1 (.object (some 1) :: [])).finalVm.Fiber = Vm1.Fiber ∧
      (∀ (Later : CkVm) (Emptied : CkModule) (Again : List CkValue),
        Later.Heap[1]? = some Emptied → Emptied.Fiber = none →
        Emptied.EntryFunction = none →
        CkpModuleRun Later (.object (some 1) :: Again)
          = .ok (true, CkNullValue :: Again) Later) :=
  ⟨rfl, CkpModuleRun_foreign_once CkForeignLoaded 1 CkNativeModule CkNativeEntry [] rfl rfl rfl⟩

/-- C9 (coroutine handoff).  For a module whose pending fiber has at least one
frame and no pending error, `run` returns `FALSE` and writes no result; in the
state reached the fiber slot of the module is empty while its name, path,
variables, entry function and handle are as before, every other module is as
before, the active fiber is the pending fiber, and the caller recorded in that
fiber is the fiber that was active when `run` was called. -/
theorem CkpModuleRun_handoff (Vm : CkVm) (Module Fiber : Nat) (Object : CkModule)
    (Coroutine : CkFiber) (Rest : List CkValue)
    (hM : Vm.Heap[Module]? = some Object) (hF : Object.Fiber = some Fiber)
    (hC : Vm.Fibers[Fiber]? = some Coroutine) (hfr : Coroutine.FrameCount ≠ 0)
    (herr : Coroutine.Error = CkNullValue) :
    ∃ Vm1, CkpModuleRun Vm (.object (some Module) :: Rest)
        = .ok (false, .object (some Module) :: Rest) Vm1 ∧
      Vm1.Heap[Module]? = some { Object with Fiber := none } ∧
      (∀ Other, Other ≠ Module → Vm1.Heap[Other]? = Vm.Heap[Other]?) ∧
      Vm1.Fiber = some Fiber ∧
      Vm1.Fibers[Fiber]? = some { Coroutine with Caller := Vm.Fiber } ∧
      Vm1.Modules = Vm.Modules ∧ Vm1.Called = Vm.Called ∧ Vm1.Raised = Vm.Raised := by
  have hlt : Module < Vm.Heap.length := by
    rcases List.getElem?_eq_some.mp hM with ⟨hlt, _⟩
    exact hlt
  have hfl : Fiber < Vm.Fibers.length := by
    rcases List.getElem?_eq_some.mp hC with ⟨hfl, _⟩
    exact hfl
  refine ⟨_, CkpModuleRun_fiber Vm Module Fiber Object Coroutine Rest hM hF hC hfr herr,
    by simp [hlt], ?_, rfl, by simp [hfl], rfl, rfl, rfl⟩
  intro Other hne
  simp [List.getElem?_set_ne (Ne.symm hne)]

/-- C9 on the module the source path built on the bootstrap machine: fiber 1
becomes the active fiber and records fiber 0 as its caller. -/
theorem CkpModuleRun_handoff_witness :
    CkSourceLoaded.Heap[1]? = some CkGeoModule ∧
    CkSourceLoaded.Fibers[1]? = some CkGeoFiber ∧
    CkSourceLoaded.Fiber = some 0 ∧
    ∃ Vm1, CkpModuleRun CkSourceLoaded (.object (some 1) :: [])
        = .ok (false, .object (some 1) :: []) Vm1 ∧
      Vm1.Heap[1]? = some { CkGeoModule with Fiber := none } ∧
      (∀ Other, Other ≠ 1 → Vm1.Heap[Other]? = CkSourceLoaded.Heap[Other]?) ∧
      Vm1.Fiber = some 1 ∧
      Vm1.Fibers[1]? = some { CkGeoFiber with Caller := CkSourceLoaded.Fiber } ∧
      Vm1.Modules = CkSourceLoaded.Modules ∧ Vm1.Called = CkSourceLoaded.Called ∧
      Vm1.Raised = CkSourceLoaded.Raised :=
  ⟨rfl, rfl, rfl,
    CkpModuleRun_handoff CkSourceLoaded 1 1 CkGeoModule CkGeoFiber [] rfl rfl rfl (by decide) rfl⟩

/-- C14 (load of an already registered name is free).  When the lookup of the
name yields a module, `CkpModuleLoad` returns that module and leaves the whole
state as it is, whether or not a load callback is configured: the host is not
asked, no error is reported, and the registry and the module, pending
initializer included, are unchanged. -/
theorem CkpModuleLoad_registered_free (Env : CkEnvironment) (Vm : CkVm) (Name : String)
    (Module : Nat) (h : CkpModuleGet Vm (.string Name) = some Module) :
    CkpModuleLoad Env Vm (.string Name) = .ok (.object (some Module)) Vm ∧
    (CkpModuleLoad Env Vm (.string Name)).finalVm.LoadRequests = Vm.LoadRequests ∧
    (CkpModuleLoad Env Vm (.string Name)).finalVm.Raised = Vm.Raised ∧
    (CkpModuleLoad Env Vm (.string Name)).finalVm.Modules = Vm.Modules ∧
    (CkpModuleLoad Env Vm (.string Name)).finalVm.Heap = Vm.Heap ∧
    (CkpModuleLoad Env Vm (.string Name)).finalVm.Fibers = Vm.Fibers := by
  have h2 := CkpModuleLoad_registered Env Vm Name Module h
  rw [h2]
  exact ⟨rfl, rfl, rfl, rfl, rfl, rfl⟩

/-- C14 on the machine where `geo` is registered as module 1, with no load
callback configured. -/
theorem CkpModuleLoad_registered_free_witness :
    CkpModuleGet CkSourceLoaded (.string "geo") = some 1 ∧
    CkNoHost.Configuration.LoadModule = none ∧
    CkpModuleLoad CkNoHost CkSourceLoaded (.string "geo") = .ok (.object (some 1)) CkSourceLoaded ∧
    (CkpModuleLoad CkNoHost CkSourceLoaded (.string "geo")).finalVm.LoadRequests
      = CkSourceLoaded.LoadRequests ∧
    (CkpModuleLoad CkNoHost CkSourceLoaded (.string "geo")).finalVm.Raised
      = CkSourceLoaded.Raised ∧
    (CkpModuleLoad CkNoHost CkSourceLoaded (.string "geo")).finalVm.Modules
      = CkSourceLoaded.Modules ∧
    (CkpModuleLoad CkNoHost CkSourceLoaded (.string "geo")).finalVm.Heap = CkSourceLoaded.Heap ∧
    (CkpModuleLoad CkNoHost CkSourceLoaded (.string "geo")).finalVm.Fibers
      = CkSourceLoaded.Fibers :=
  ⟨rfl, rfl, CkpModuleLoad_registered_free CkNoHost CkSourceLoaded "geo" 1 rfl⟩

/-- C15 (no resolver configured).  For a name that is not registered, when no
load callback is configured `CkpModuleLoad` returns the null value and reports
one `ImportError`; the registry, the module objects and the trace of host
requests are unchanged. -/
theorem CkpModuleLoad_no_callback (Env : CkEnvironment) (Vm : CkVm) (Name : String)
    (hreg : CkpModuleGet Vm (.string Name) = none)
    (hcfg : Env.Configuration.LoadModule = none) :
    ∃ Vm1, CkpModuleLoad Env Vm (.string Name) = .ok CkNullValue Vm1 ∧
      Vm1.Raised = Vm.Raised ++ [("ImportError", "Module load not supported")] ∧
      Vm1.Modules = Vm.Modules ∧ Vm1.Heap = Vm.Heap ∧
      CkpModuleGet Vm1 (.string Name) = none ∧
      Vm1.LoadRequests = Vm.LoadRequests := by
  refine ⟨CkpRuntimeError Vm "ImportError" "Module load not supported", ?_,
    CkpRuntimeError_Raised _ _ _, CkpRuntimeError_Modules _ _ _, CkpRuntimeError_Heap _ _ _, ?_,
    CkpRuntimeError_LoadRequests _ _ _⟩
  · unfold CkpModuleLoad
    simp only [CK_AS_STRING_string, hreg, hcfg]
  · rw [← hreg]
    exact CkpModuleGet_of_Modules_eq _ _ _ (CkpRuntimeError_Modules _ _ _)

/-- C15 on the bootstrap machine with no load callback. -/
theorem CkpModuleLoad_no_callback_witness :
    ∃ Vm1, CkpModuleLoad CkNoHost CkBootVm (.string "geo") = .ok CkNullValue Vm1 ∧
      Vm1.Raised = CkBootVm.Raised ++ [("ImportError", "Module load not supported")] ∧
      Vm1.Modules = CkBootVm.Modules ∧ Vm1.Heap = CkBootVm.Heap ∧
      CkpModuleGet Vm1 (.string "geo") = none ∧
      Vm1.LoadRequests = CkBootVm.LoadRequests :=
  CkpModuleLoad_no_callback CkNoHost CkBootVm "geo" rfl rfl

/-- C16 (source path success implies a pending coroutine), evaluated on the
code.  On the bootstrap machine with an allocator that refuses the fiber,
`CkpModuleLoadSource` compiles the text (the compiler is asked and accepts),
gets `NULL` from `CkpFiberCreate`, stores it in `Module->Fiber` without
testing it and returns the module: the call reports success and the fiber slot
of the module is empty.  A `run` of that module is then a no-op. -/
theorem CkpModuleLoadSource_without_fiber :
    ∃ Vm1 Object,
      CkpModuleLoadSource (CkHostAnswering .CkLoadModuleNotFound) CkNoFiberVm (.string "geo")
        CkNullValue "var x = 1;" = .ok (some 1) Vm1 ∧
      Vm1.CompileRequests = [(1, "var x = 1;")] ∧
      Vm1.Heap[1]? = some Object ∧ Object.Fiber = none ∧ Object.EntryFunction = none ∧
      Vm1.Fibers = CkNoFiberVm.Fibers ∧
      CkpModuleRun Vm1 [.object (some 1)] = .ok (true, [CkNullValue]) Vm1 :=
  ⟨_, _, rfl, rfl, rfl, rfl, rfl, rfl, rfl⟩

/-! ## Claims about the primitives `get` and `__str` -/

/-- C12 as stated fails.  The module created on the bootstrap machine under
the name `g`, `e`, NUL, `o`, `s`, with no path, has exactly that name, and
`CkpModuleToString` yields `<module "ge">`: the name is passed to the
formatter as a C string, which ends at the NUL.  The text is not the name
between the quotes. -/
theorem CkpModuleToString_cuts_at_nul :
    CkpModuleCreate CkBootVm (some "ge\x00os") none = .ok (some 1) CkNulNameVm ∧
    (∃ Object, CkNulNameVm.Heap[1]? = some Object ∧ Object.Name = some "ge\x00os" ∧
      Object.Path = none) ∧
    CkpModuleToString CkNulNameVm [.object (some 1)]
      = .ok (true, [.string "<module \"ge\">"]) CkNulNameVm ∧
    (CkpModuleToString CkNulNameVm [.object (some 1)]).result
      ≠ some (true, [.string ("<module \"" ++ "ge\x00os" ++ "\">")]) :=
  ⟨rfl, ⟨_, rfl, rfl, rfl⟩, rfl, by decide⟩

/-- C12, amended.  For every module object, `CkpModuleToString` returns `TRUE`,
leaves the state as it is and puts a string in the result slot.  With name `N`
and path `P` the text is `<module "n" at "p">` where `n` and `p` are `N` and
`P` up to their first NUL character; when neither contains a NUL the text is
exactly `<module "N" at "P">`.  With name `N` and no path the text is
`<module "n">`, exactly `<module "N">` when `N` contains no NUL.  For a module
with no name the label `<builtin>` stands for the name. -/
theorem CkpModuleToString_exact (Vm : CkVm) (Module : Nat) (Object : CkModule)
    (Rest : List CkValue) (hM : Vm.Heap[Module]? = some Object) :
    (∀ Name Path, Object.Name = some Name → Object.Path = some Path →
      CkpModuleToString Vm (.object (some Module) :: Rest)
        = .ok (true, .string ("<module \"" ++ CkCString Name ++ "\" at \""
            ++ CkCString Path ++ "\">") :: Rest) Vm ∧
      (Char.ofNat 0 ∉ Name.data → Char.ofNat 0 ∉ Path.data →
        CkpModuleToString Vm (.object (some Module) :: Rest)
          = .ok (true, .string ("<module \"" ++ Name ++ "\" at \"" ++ Path ++ "\">") :: Rest)
              Vm)) ∧
    (∀ Name, Object.Name = some Name → Object.Path = none →
      CkpModuleToString Vm (.object (some Module) :: Rest)
        = .ok (true, .string ("<module \"" ++ CkCString Name ++ "\">") :: Rest) Vm ∧
      (Char.ofNat 0 ∉ Name.data →
        CkpModuleToString Vm (.object (some Module) :: Rest)
          = .ok (true, .string ("<module \"" ++ Name ++ "\">") :: Rest) Vm)) ∧
    (Object.Name = none → Object.Path = none →
      CkpModuleToString Vm (.object (some Module) :: Rest)
        = .ok (true, .string "<module \"<builtin>\">" :: Rest) Vm) ∧
    (∀ Path, Object.Name = none → Object.Path = some Path →
      CkpModuleToString Vm (.object (some Module) :: Rest)
        = .ok (true, .string ("<module \"<builtin>\" at \"" ++ CkCString Path ++ "\">") :: Rest)
            Vm ∧
      (Char.ofNat 0 ∉ Path.data →
        CkpModuleToString Vm (.object (some Module) :: Rest)
          = .ok (true, .string ("<module \"<builtin>\" at \"" ++ Path ++ "\">") :: Rest) Vm)) ∧
    (∃ Text, CkpModuleToString Vm (.object (some Module) :: Rest)
        = .ok (true, .string Text :: Rest) Vm) := by
  have hboth : ∀ Name Path, Object.Name = some Name → Object.Path = some Path →
      CkpModuleToString Vm (.object (some Module) :: Rest)
        = .ok (true, .string ("<module \"" ++ CkCString Name ++ "\" at \""
            ++ CkCString Path ++ "\">") :: Rest) Vm := by
    intro Name Path hN hP
    unfold CkpModuleToString
    simp only [List.head?_cons, hM, hN, hP, CkpStringFormat_name_path, List.set_cons_zero]
  have hname : ∀ Name, Object.Name = some Name → Object.Path = none →
      CkpModuleToString Vm (.object (some Module) :: Rest)
        = .ok (true, .string ("<module \"" ++ CkCString Name ++ "\">") :: Rest) Vm := by
    intro Name hN hP
    unfold CkpModuleToString
    simp only [List.head?_cons, hM, hN, hP, CkpStringFormat_name, List.set_cons_zero]
  have hpath : ∀ Path, Object.Name = none → Object.Path = some Path →
      CkpModuleToString Vm (.object (some Module) :: Rest)
        = .ok (true, .string ("<module \"<builtin>\" at \"" ++ CkCString Path ++ "\">") :: Rest)
            Vm := by
    intro Path hN hP
    unfold CkpModuleToString
    simp only [List.head?_cons, hM, hN, hP, CkpStringFormat_name_path, List.set_cons_zero]
    rfl
  refine ⟨?_, ?_, ?_, ?_, ?_⟩
  · intro Name Path hN hP
    refine ⟨hboth Name Path hN hP, ?_⟩
    intro h0 h1
    have h := hboth Name Path hN hP
    rw [CkCString_of_no_nul Name h0, CkCString_of_no_nul Path h1] at h
    exact h
  · intro Name hN hP
    refine ⟨hname Name hN hP, ?_⟩
    intro h0
    have h := hname Name hN hP
    rw [CkCString_of_no_nul Name h0] at h
    exact h
  · intro hN hP
    unfold CkpModuleToString
    simp only [List.head?_cons, hM, hN, hP, CkpStringFormat_name, List.set_cons_zero]
    rfl
  · intro Path hN hP
    refine ⟨hpath Path hN hP, ?_⟩
    intro h0
    have h := hpath Path hN hP
    rw [CkCString_of_no_nul Path h0] at h
    exact h
  · unfold CkpModuleToString
    cases hP : Object.Path with
    | none =>
      simp only [List.head?_cons, hM, hP, CkpStringFormat_name, List.set_cons_zero]
      exact ⟨_, rfl⟩
    | some Path =>
      simp only [List.head?_cons, hM, hP, CkpStringFormat_name_path, List.set_cons_zero]
      exact ⟨_, rfl⟩

/-- C12 amended, on three modules: `geo` with the path `/lib/geo.ck`, `geo`
with no path, and the anonymous core module. -/
theorem CkpModuleToString_exact_witness :
    CkpModuleToString CkSourceLoaded [.object (some 1)]
      = .ok (true, [.string "<module \"geo\" at \"/lib/geo.ck\">"]) CkSourceLoaded ∧
    CkpModuleToString CkAbcCreated [.object (some 1)]
      = .ok (true, [.string "<module \"geo\">"]) CkAbcCreated ∧
    CkpModuleToString CkBootVm [.object (some 0)]
      = .ok (true, [.string "<module \"<builtin>\">"]) CkBootVm :=
  ⟨((CkpModuleToString_exact CkSourceLoaded 1 CkGeoModule [] rfl).1 "geo" "/lib/geo.ck"
      rfl rfl).2 (by decide) (by decide),
    ((CkpModuleToString_exact CkAbcCreated 1 _ [] rfl).2.1 "geo" rfl rfl).2 (by decide),
    (CkpModuleToString_exact CkBootVm 0 _ [] rfl).2.2.1 rfl rfl⟩

/-- C13 as stated fails.  The namespace of the module `geo` built by the
source path binds `Object` and `print`, and binds nothing to the string made
of `print`, NUL, `x`; yet `get` of that string returns `TRUE` with the value
of `print`, because the name is looked up as a C string, which ends at the
NUL.  And on the module named `g`, `e`, NUL, `o`, `s`, which does not define
`x`, the message of the `NameError` names the module `ge`. -/
theorem CkpModuleGetVariable_cuts_at_nul :
    CkSourceLoaded.Heap[1]? = some CkGeoModule ∧
    CkpFindModuleVariable CkGeoModule "print\x00x" = none ∧
    CkpModuleGetVariable CkSourceLoaded [.object (some 1), .string "print\x00x"]
      = .ok (true, [.integer 2, .string "print\x00x"]) CkSourceLoaded ∧
    (∃ Object, CkNulNameVm.Heap[1]? = some Object ∧ Object.Name = some "ge\x00os" ∧
      CkpFindModuleVariable Object "x" = none) ∧
    CkpModuleGetVariable CkNulNameVm [.object (some 1), .string "x"]
      = .ok (false, [.object (some 1), .string "x"])
          (CkpRuntimeError CkNulNameVm "NameError" "No such variable 'x' in module 'ge'") :=
  ⟨rfl, rfl, rfl, ⟨_, rfl, rfl, rfl⟩, rfl⟩

/-- C13, amended.  For a module that has a name and a string `x`, `get` looks
up the C string of `x`, which is `x` up to its first NUL character: when the
namespace of the module itself binds that name, `get` returns `TRUE` with the
bound value in the result slot and leaves the state as it is; otherwise it
returns `FALSE` and reports a `NameError` whose message carries the C string
of `x` and the C string of the name of the module.  When `x` contains no NUL
the name looked up is `x` itself, and when the name of the module contains
none either the message carries `x` and the name of the module.  The outcome
is a function of the module object alone: on any other machine holding the
same object at that address, whatever its registry and its other modules are,
`get` returns the same.  For an argument that is not a string `get` returns
`FALSE` and reports a `TypeError` whatever the receiver is, so the namespace
is not consulted. -/
theorem CkpModuleGetVariable_scoped (Vm : CkVm) (Module : Nat) (Object : CkModule)
    (ModuleName : String) (Rest : List CkValue)
    (hM : Vm.Heap[Module]? = some Object) (hN : Object.Name = some ModuleName) :
    (∀ Name Value, CkpFindModuleVariable Object (CkCString Name) = some Value →
      CkpModuleGetVariable Vm (.object (some Module) :: .string Name :: Rest)
        = .ok (true, Value :: .string Name :: Rest) Vm) ∧
    (∀ Name, CkpFindModuleVariable Object (CkCString Name) = none →
      CkpModuleGetVariable Vm (.object (some Module) :: .string Name :: Rest)
        = .ok (false, .object (some Module) :: .string Name :: Rest)
            (CkpRuntimeError Vm "NameError"
              ("No such variable '" ++ CkCString Name ++ "' in module '"
                ++ CkCString ModuleName ++ "'"))) ∧
    (∀ Name Value, Char.ofNat 0 ∉ Name.data → CkpFindModuleVariable Object Name = some Value →
      CkpModuleGetVariable Vm (.object (some Module) :: .string Name :: Rest)
        = .ok (true, Value :: .string Name :: Rest) Vm) ∧
    (∀ Name, Char.ofNat 0 ∉ Name.data → Char.ofNat 0 ∉ ModuleName.data →
      CkpFindModuleVariable Object Name = none →
      CkpModuleGetVariable Vm (.object (some Module) :: .string Name :: Rest)
        = .ok (false, .object (some Module) :: .string Name :: Rest)
            (CkpRuntimeError Vm "NameError"
              ("No such variable '" ++ Name ++ "' in module '" ++ ModuleName ++ "'"))) ∧
    (∀ (Other : CkVm) (Name : String), Other.Heap[Module]? = some Object →
      (CkpModuleGetVariable Other (.object (some Module) :: .string Name :: Rest)).result
        = (CkpModuleGetVariable Vm (.object (some Module) :: .string Name :: Rest)).result) ∧
    (∀ Receiver Argument, CK_IS_STRING Argument = false →
      CkpModuleGetVariable Vm (Receiver :: Argument :: Rest)
        = .ok (false, Receiver :: Argument :: Rest)
            (CkpRuntimeError Vm "TypeError" "Expected a string")) := by
  have hfound : ∀ Name Value, CkpFindModuleVariable Object (CkCString Name) = some Value →
      CkpModuleGetVariable Vm (.object (some Module) :: .string Name :: Rest)
        = .ok (true, Value :: .string Name :: Rest) Vm := by
    intro Name Value hfind
    unfold CkpModuleGetVariable
    simp [CK_AS_STRING, hM, hfind]
  have hmissing : ∀ Name, CkpFindModuleVariable Object (CkCString Name) = none →
      CkpModuleGetVariable Vm (.object (some Module) :: .string Name :: Rest)
        = .ok (false, .object (some Module) :: .string Name :: Rest)
            (CkpRuntimeError Vm "NameError"
              ("No such variable '" ++ CkCString Name ++ "' in module '"
                ++ CkCString ModuleName ++ "'")) := by
    intro Name hfind
    unfold CkpModuleGetVariable
    simp [CK_AS_STRING, hM, hfind, hN]
  refine ⟨hfound, hmissing, ?_, ?_, ?_, ?_⟩
  · intro Name Value h0 hfind
    rw [← CkCString_of_no_nul Name h0] at hfind
    exact hfound Name Value hfind
  · intro Name h0 h1 hfind
    have h := hmissing Name (by rw [CkCString_of_no_nul Name h0]; exact hfind)
    rw [CkCString_of_no_nul Name h0, CkCString_of_no_nul ModuleName h1] at h
    exact h
  · intro Other Name hO
    unfold CkpModuleGetVariable
    cases hfind : CkpFindModuleVariable Object (CkCString Name) <;>
      simp [CK_AS_STRING, hM, hO, hfind, hN, CkOutcome.result]
  · intro Receiver Argument hA
    unfold CkpModuleGetVariable
    cases Argument <;> simp [CK_IS_STRING] at hA <;> simp [CK_AS_STRING]

/-- C13 amended, on the module `geo` built by the source path, whose namespace
holds the two variables copied from the core module: `print` is found, `x` is
not. -/
theorem CkpModuleGetVariable_scoped_witness :
    CkpModuleGetVariable CkSourceLoaded [.object (some 1), .string "print"]
      = .ok (true, [.integer 2, .string "print"]) CkSourceLoaded ∧
    CkpModuleGetVariable CkSourceLoaded [.object (some 1), .string "x"]
      = .ok (false, [.object (some 1), .string "x"])
          (CkpRuntimeError CkSourceLoaded "NameError" "No such variable 'x' in module 'geo'") ∧
    CkpModuleGetVariable CkSourceLoaded [.object (some 1), .integer 3]
      = .ok (false, [.object (some 1), .integer 3])
          (CkpRuntimeError CkSourceLoaded "TypeError" "Expected a string") :=
  ⟨(CkpModuleGetVariable_scoped CkSourceLoaded 1 CkGeoModule "geo" [] rfl rfl).2.2.1
      "print" (.integer 2) (by decide) rfl,
    (CkpModuleGetVariable_scoped CkSourceLoaded 1 CkGeoModule "geo" [] rfl rfl).2.2.2.1 "x"
      (by decide) (by decide) rfl,
    (CkpModuleGetVariable_scoped CkSourceLoaded 1 CkGeoModule "geo" [] rfl rfl).2.2.2.2.2
      (.object (some 1)) (.integer 3) rfl⟩

/-- C20 (`get` is total on every module value), evaluated on the code.  On
the bootstrap machine the core module, at address 0, has no name and does not
define `x`: `get("x")` on it reaches the construction of the `NameError`
message, which reads `Module->Name->Value` through the `NULL` name, and no
`NameError` is reported.  `CkpModuleToString` on the same module tests the name
first and returns the label `<builtin>`. -/
theorem CkpModuleGetVariable_core_faults :
    (∃ Core, CkBootVm.Heap[0]? = some Core ∧ Core.Name = none ∧
      CkpFindModuleVariable Core "x" = none) ∧
    CkpModuleGet CkBootVm CkNullValue = some 0 ∧
    CkpModuleGetVariable CkBootVm [.object (some 0), .string "x"]
      = .fault .invalidPointer CkBootVm ∧
    (CkpModuleGetVariable CkBootVm [.object (some 0), .string "x"]).finalVm.Raised = [] ∧
    CkpModuleToString CkBootVm [.object (some 0)]
      = .ok (true, [.string "<module \"<builtin>\">"]) CkBootVm :=
  ⟨⟨_, rfl, rfl, rfl⟩, rfl, rfl, rfl, rfl⟩

/-! ## Further claims about the run primitive -/

/-- C18 as stated fails.  Module 1 of `CkEmptyFiberVm` has fiber 0 pending, a
fiber with no frame and no pending error: the claim says the handoff proceeds,
the assertion of `CkpModuleRun` fails. -/
theorem CkpModuleRun_asserts_on_empty_fiber :
    (∃ Object Coroutine, CkEmptyFiberVm.Heap[1]? = some Object ∧ Object.Fiber = some 0 ∧
      CkEmptyFiberVm.Fibers[0]? = some Coroutine ∧ Coroutine.FrameCount = 0 ∧
      Coroutine.Error = CkNullValue) ∧
    CkpModuleRun CkEmptyFiberVm [.object (some 1)] = .fault .assertion CkEmptyFiberVm :=
  ⟨⟨_, _, rfl, rfl, rfl, rfl, rfl⟩, rfl⟩

/-- C18, amended.  For a module with a pending fiber, the assertion of
`CkpModuleRun` fails exactly when the fiber has no frame or has a pending
error; when the fiber has at least one frame and no pending error the handoff
proceeds: `run` returns `FALSE` and the fiber becomes the active fiber. -/
theorem CkpModuleRun_assertion (Vm : CkVm) (Module Fiber : Nat) (Object : CkModule)
    (Coroutine : CkFiber) (Rest : List CkValue)
    (hM : Vm.Heap[Module]? = some Object) (hF : Object.Fiber = some Fiber)
    (hC : Vm.Fibers[Fiber]? = some Coroutine) :
    (CkpModuleRun Vm (.object (some Module) :: Rest) = .fault .assertion Vm ↔
      (Coroutine.FrameCount = 0 ∨ Coroutine.Error ≠ CkNullValue)) ∧
    ((Coroutine.FrameCount ≠ 0 ∧ Coroutine.Error = CkNullValue) →
      ∃ Vm1, CkpModuleRun Vm (.object (some Module) :: Rest)
          = .ok (false, .object (some Module) :: Rest) Vm1 ∧
        Vm1.Fiber = some Fiber) := by
  have hgood : (Coroutine.FrameCount ≠ 0 ∧ Coroutine.Error = CkNullValue) →
      ∃ Vm1, CkpModuleRun Vm (.object (some Module) :: Rest)
          = .ok (false, .object (some Module) :: Rest) Vm1 ∧
        Vm1.Fiber = some Fiber := by
    rintro ⟨hfr, herr⟩
    exact ⟨_, CkpModuleRun_fiber Vm Module Fiber Object Coroutine Rest hM hF hC hfr herr, rfl⟩
  refine ⟨⟨?_, ?_⟩, hgood⟩
  · intro hfault
    by_contra hcon
    have hok : Coroutine.FrameCount ≠ 0 ∧ Coroutine.Error = CkNullValue := by
      constructor
      · intro h0; exact hcon (Or.inl h0)
      · by_contra hne; exact hcon (Or.inr hne)
    obtain ⟨Vm1, hrun, _⟩ := hgood hok
    rw [hrun] at hfault
    cases hfault
  · intro hbad
    exact CkpModuleRun_assert_fails Vm Module Fiber Object Coroutine Rest hM hF hC hbad

/-- C18 amended, on the module whose pending fiber has no frame: the
assertion fails. -/
theorem CkpModuleRun_assertion_witness :
    CkpModuleRun CkEmptyFiberVm (.object (some 1) :: []) = .fault .assertion CkEmptyFiberVm ∧
    CkpModuleRun CkSourceLoaded (.object (some 1) :: []) ≠ .fault .assertion CkSourceLoaded :=
  ⟨(CkpModuleRun_assertion CkEmptyFiberVm 1 0 _ _ [] rfl rfl rfl).1.mpr (Or.inl rfl),
    fun hfault =>
      ((CkpModuleRun_assertion CkSourceLoaded 1 1 CkGeoModule CkGeoFiber [] rfl rfl rfl).1.mp
        hfault).elim (fun h0 => absurd h0 (by decide)) (fun hne => hne rfl)⟩

/-! ## Claims about module creation and the source path -/

/-- C11 (seeded namespace stability).  Let the core module be registered, with
variables of distinct names.  `CkpModuleCreate` either fails to allocate and
returns `NULL`, or returns the new module, whose namespace right after the
call consists of exactly the variables of the core module, with the same
values, in the same order, the core module being as it was.  Whatever is
defined in the core module afterwards, the new module object is unchanged;
and a variable whose name is new to the core module is appended to the core
module and is not found in the new module. -/
theorem CkpModuleCreate_snapshot (Vm : CkVm) (Name Path : Option String) (CoreModule : Nat)
    (Core : CkModule) (hcore : CkpModuleGet Vm CkNullValue = some CoreModule)
    (hC : Vm.Heap[CoreModule]? = some Core)
    (hdistinct : (Core.Variables.map Prod.fst).Nodup) :
    (∃ Vm1, CkpModuleCreate Vm Name Path = .ok none Vm1 ∧ Vm1.Modules = Vm.Modules) ∨
    (∃ Vm1 Object, CkpModuleCreate Vm Name Path = .ok (some Vm.Heap.length) Vm1 ∧
      Vm1.Heap[Vm.Heap.length]? = some Object ∧
      Object.Variables = Core.Variables ∧
      Vm1.Heap[CoreModule]? = some Core ∧
      ∀ Later Value,
        (CkpDefineModuleVariable Vm1 CoreModule Later Value).Heap[Vm.Heap.length]? = some Object ∧
        (Later ∉ Core.Variables.map Prod.fst →
          (CkpDefineModuleVariable Vm1 CoreModule Later Value).Heap[CoreModule]?
              = some { Core with Variables := Core.Variables ++ [(Later, Value)] } ∧
          CkpFindModuleVariable Object Later = none)) := by
  have hlt : CoreModule < Vm.Heap.length := by
    rcases List.getElem?_eq_some.mp hC with ⟨hlt, _⟩
    exact hlt
  rcases CkpModuleCreate_seeded Vm Name Path CoreModule Core hcore hC with
    ⟨Rest, Garbage, h⟩ | ⟨Rest, h⟩
  · left; exact ⟨_, h, rfl⟩
  · right
    have hseed : CkSeedVariables [] Core.Variables = Core.Variables := by
      have := CkSeedVariables_distinct Core.Variables [] (by simpa using hdistinct)
      simpa using this
    rw [hseed] at h
    refine ⟨_, { CkZeroModule Name Path with Variables := Core.Variables }, h, by simp, rfl,
      ?_, ?_⟩
    · simp only []
      rw [List.getElem?_append_left hlt]
      exact hC
    · intro Later Value
      have hcoreAt : (Vm.Heap ++ [{ CkZeroModule Name Path with
          Variables := Core.Variables }])[CoreModule]? = some Core := by
        rw [List.getElem?_append_left hlt]
        exact hC
      have hne : CoreModule ≠ Vm.Heap.length := Nat.ne_of_lt hlt
      refine ⟨?_, ?_⟩
      · simp [CkpDefineModuleVariable, CkVm.storeModule, hcoreAt, List.getElem?_set_ne hne]
      · intro hnew
        refine ⟨?_, ?_⟩
        · simp only [CkpDefineModuleVariable, CkVm.storeModule, hcoreAt,
            CkpDefineVariable_new Core.Variables Later Value hnew]
          exact List.getElem?_set_self (by simp; omega)
        · unfold CkpFindModuleVariable
          have hfind : List.find? (fun Variable => decide (Variable.1 = Later)) Core.Variables
              = none := by
            rw [List.find?_eq_none]
            intro Variable hmem
            simp only [decide_eq_true_eq]
            intro heq
            exact hnew (List.mem_map.mpr ⟨Variable, hmem, heq⟩)
          simp only [hfind]

/-- C11 on the machine whose core module defines `a`, `b`, `c`: the module
`geo` created there holds `a`, `b`, `c` in this order, and still does after
`d` is defined in the core module. -/
theorem CkpModuleCreate_snapshot_witness :
    CkpModuleCreate CkAbcVm (some "geo") none = .ok (some 1) CkAbcCreated ∧
    (CkAbcCreated.Heap[1]?).map CkModule.Variables
      = some [("a", .integer 1), ("b", .integer 2), ("c", .integer 3)] ∧
    ((CkpDefineModuleVariable CkAbcCreated 0 "d" (.integer 4)).Heap[0]?).map CkModule.Variables
      = some [("a", .integer 1), ("b", .integer 2), ("c", .integer 3), ("d", .integer 4)] ∧
    ((CkpDefineModuleVariable CkAbcCreated 0 "d" (.integer 4)).Heap[1]?).map CkModule.Variables
      = some [("a", .integer 1), ("b", .integer 2), ("c", .integer 3)] ∧
    ((∃ Vm1, CkpModuleCreate CkAbcVm (some "geo") none = .ok none Vm1 ∧
        Vm1.Modules = CkAbcVm.Modules) ∨
      (∃ Vm1 Object,
        CkpModuleCreate CkAbcVm (some "geo") none = .ok (some CkAbcVm.Heap.length) Vm1 ∧
        Vm1.Heap[CkAbcVm.Heap.length]? = some Object ∧
        Object.Variables = [("a", .integer 1), ("b", .integer 2), ("c", .integer 3)] ∧
        Vm1.Heap[0]? = CkAbcVm.Heap[0]? ∧
        ∀ Later Value,
          (CkpDefineModuleVariable Vm1 0 Later Value).Heap[CkAbcVm.Heap.length]? = some Object ∧
          (Later ∉ ["a", "b", "c"] →
            (CkpDefineModuleVariable Vm1 0 Later Value).Heap[0]?
                = some { CkZeroModule none none with
                    Variables := [("a", .integer 1), ("b", .integer 2), ("c", .integer 3)]
                      ++ [(Later, Value)] } ∧
            CkpFindModuleVariable Object Later = none))) :=
  ⟨rfl, rfl, rfl, rfl,
    CkpModuleCreate_snapshot CkAbcVm (some "geo") none 0
      { CkZeroModule none none with
          Variables := [("a", .integer 1), ("b", .integer 2), ("c", .integer 3)] }
      rfl rfl (by decide)⟩

/-- C19 (registration precedes compilation).  A call of `CkpModuleLoadSource`
either ends before the compiler is asked, returning no module (the module
could not be created), or reaches the call of the compiler in a state where
the module passed to the compiler is the module the registry holds under the
name: from there the routine is its second half, which asks the compiler once
for that module, and a `CkpModuleLoad` of the name issued in that state
returns that module and leaves the state as it is, without asking the host.
When a module was already registered under the name it is that module which
is compiled, in the state the routine was called in: no module is created and
nothing of the module is written before the compiler runs. -/
theorem CkpModuleLoadSource_registered_at_compile (Env : CkEnvironment) (Vm : CkVm)
    (Name : String) (Path : CkValue) (Source : String) :
    ((CkpModuleLoadSource Env Vm (.string Name) Path Source).finalVm.CompileRequests
        = Vm.CompileRequests ∧
      CkpModuleGet Vm (.string Name) = none ∧
      ∀ Module, (CkpModuleLoadSource Env Vm (.string Name) Path Source).result
        ≠ some (some Module)) ∨
    (∃ AtCompile Module,
      CkpModuleGet AtCompile (.string Name) = some Module ∧
      CkpModuleLoadSource Env Vm (.string Name) Path Source
        = CkpModuleLoadSourceCompile Env AtCompile Module Source ∧
      AtCompile.CompileRequests = Vm.CompileRequests ∧
      (CkpModuleLoadSource Env Vm (.string Name) Path Source).finalVm.CompileRequests
        = Vm.CompileRequests ++ [(Module, Source)] ∧
      (∀ Host, CkpModuleLoad Host AtCompile (.string Name)
        = .ok (.object (some Module)) AtCompile) ∧
      (∀ Found, CkpModuleGet Vm (.string Name) = some Found →
        Module = Found ∧ AtCompile = Vm) ∧
      (CkpModuleGet Vm (.string Name) = none →
        Module = Vm.Heap.length ∧ AtCompile.Heap.length = Vm.Heap.length + 1)) := by
  cases hget : CkpModuleGet Vm (.string Name) with
  | some Found =>
    right
    have hLS : CkpModuleLoadSource Env Vm (.string Name) Path Source
        = CkpModuleLoadSourceCompile Env Vm Found Source := by
      unfold CkpModuleLoadSource
      simp only [hget]
    refine ⟨Vm, Found, hget, hLS, rfl, ?_, ?_, ?_, ?_⟩
    · rw [hLS]; exact CkpModuleLoadSourceCompile_requests Env Vm Found Source
    · intro Host; exact CkpModuleLoad_registered Host Vm Name Found hget
    · intro Found2 h2
      cases h2
      exact ⟨rfl, rfl⟩
    · intro h2; cases h2
  | none =>
    have hLS : CkpModuleLoadSource Env Vm (.string Name) Path Source
        = match CkpModuleCreate Vm (some Name) (CK_AS_STRING Path) with
          | .fault Fault Vm1 => .fault Fault Vm1
          | .ok none Vm1 => .ok none Vm1
          | .ok (some Module) Vm1 => CkpModuleLoadSourceCompile Env Vm1 Module Source := by
      unfold CkpModuleLoadSource
      simp only [hget, CK_AS_STRING_string, CkPathString_eq]
    rcases CkpModuleCreate_cases Vm (some Name) (CK_AS_STRING Path) with
      ⟨Rest, Garbage, _, hc⟩ | ⟨Rest, hc⟩ | ⟨Rest, Variables, hc⟩
    · left
      rw [hLS, hc]
      exact ⟨rfl, rfl, fun Module hres => by simp [CkOutcome.result] at hres⟩
    · left
      rw [hLS, hc]
      exact ⟨rfl, rfl, fun Module hres => by simp [CkOutcome.result] at hres⟩
    · right
      rw [hc] at hLS
      simp only [CK_STRING_VALUE] at hLS
      have hreg : CkpModuleGet
          { Vm with Memory := Rest,
                    Heap := Vm.Heap ++ [{ CkZeroModule (some Name) (CK_AS_STRING Path) with
                                            Variables := Variables }],
                    Modules := CkpDictSet Vm.Modules (.string Name) Vm.Heap.length }
          (.string Name) = some Vm.Heap.length := by
        rw [CkpModuleGet_eq_some_iff]
        exact CkpDictGet_CkpDictSet_self _ _ _
      refine ⟨_, Vm.Heap.length, hreg, hLS, rfl, ?_, ?_, ?_, ?_⟩
      · rw [hLS]
        exact CkpModuleLoadSourceCompile_requests Env _ _ Source
      · intro Host
        exact CkpModuleLoad_registered Host _ Name _ hreg
      · intro Found h2; cases h2
      · intro _
        exact ⟨rfl, by simp⟩

/-! ## The single pending initializer invariant -/

theorem CkSinglePending_append (Vm Vm1 : CkVm) (New : List CkModule) (h : CkSinglePending Vm)
    (hH : Vm1.Heap = Vm.Heap ++ New)
    (hN : ∀ Object ∈ New, Object.Fiber = none ∨ Object.EntryFunction = none) :
    CkSinglePending Vm1 := by
  intro Object hmem
  rw [hH, List.mem_append] at hmem
  rcases hmem with h1 | h1
  · exact h Object h1
  · exact hN Object h1

theorem CkSinglePending_same (Vm Vm1 : CkVm) (h : CkSinglePending Vm) (hH : Vm1.Heap = Vm.Heap) :
    CkSinglePending Vm1 := by
  intro Object hmem
  rw [hH] at hmem
  exact h Object hmem

theorem CkSinglePending_set (Vm Vm1 : CkVm) (Module : Nat) (Object : CkModule)
    (h : CkSinglePending Vm) (hH : Vm1.Heap = Vm.Heap.set Module Object)
    (hO : Object.Fiber = none ∨ Object.EntryFunction = none) : CkSinglePending Vm1 := by
  intro Other hmem
  rw [hH] at hmem
  rcases List.mem_or_eq_of_mem_set hmem with h1 | h1
  · exact h Other h1
  · rw [h1]; exact hO

theorem CkBootstrap_single_pending (Vm : CkVm) (h : CkBootstrap Vm) : CkSinglePending Vm := by
  obtain ⟨Core, hH, _, _, hF, _⟩ := h
  intro Object hmem
  rw [hH, List.mem_singleton] at hmem
  rw [hmem]
  exact Or.inl hF

theorem CkpModuleLoadForeignFailed_Heap (Env : CkEnvironment) (Vm : CkVm) (Handle : Option Nat) :
    (CkpModuleLoadForeignFailed Env Vm Handle).Heap = Vm.Heap := by
  unfold CkpModuleLoadForeignFailed CkUnloadForeignModule
  split
  · split <;> rfl
  · rfl

/-- The heap after `run`: as before, or with one slot of the module
emptied. -/
theorem CkpModuleRun_heap (Vm : CkVm) (Arguments : List CkValue) :
    (CkpModuleRun Vm Arguments).finalVm.Heap = Vm.Heap ∨
    ∃ Module Object, Vm.Heap[Module]? = some Object ∧
      ((CkpModuleRun Vm Arguments).finalVm.Heap
          = Vm.Heap.set Module { Object with EntryFunction := none } ∨
        (CkpModuleRun Vm Arguments).finalVm.Heap
          = Vm.Heap.set Module { Object with Fiber := none }) := by
  cases Arguments with
  | nil => left; simp [CkpModuleRun, CkOutcome.finalVm]
  | cons Receiver Rest =>
    cases Receiver with
    | object Pointer =>
      cases Pointer with
      | none => left; simp [CkpModuleRun, CkOutcome.finalVm]
      | some Module =>
        cases hM : Vm.Heap[Module]? with
        | none => left; simp [CkpModuleRun, hM, CkOutcome.finalVm]
        | some Object =>
          cases hF : Object.Fiber with
          | none =>
            cases hE : Object.EntryFunction with
            | none => left; rw [CkpModuleRun_idle Vm Module Object Rest hM hF hE]; rfl
            | some Entry =>
              right
              rw [CkpModuleRun_entry Vm Module Object Entry Rest hM hF hE]
              exact ⟨Module, Object, hM, Or.inl rfl⟩
          | some Fiber =>
            cases hC : Vm.Fibers[Fiber]? with
            | none => left; simp [CkpModuleRun, hM, hF, hC, CkOutcome.finalVm]
            | some Coroutine =>
              by_cases hok : Coroutine.FrameCount ≠ 0 ∧ Coroutine.Error = CkNullValue
              · right
                rw [CkpModuleRun_fiber Vm Module Fiber Object Coroutine Rest hM hF hC hok.1 hok.2]
                exact ⟨Module, Object, hM, Or.inr rfl⟩
              · left
                have hbad : Coroutine.FrameCount = 0 ∨ Coroutine.Error ≠ CkNullValue := by
                  by_contra hcon
                  apply hok
                  constructor
                  · intro h0; exact hcon (Or.inl h0)
                  · by_contra hne; exact hcon (Or.inr hne)
                rw [CkpModuleRun_assert_fails Vm Module Fiber Object Coroutine Rest hM hF hC hbad]
                rfl
    | _ => left; simp [CkpModuleRun, CkOutcome.finalVm]

theorem CkpModuleRun_single_pending (Vm : CkVm) (Arguments : List CkValue)
    (h : CkSinglePending Vm) : CkSinglePending (CkpModuleRun Vm Arguments).finalVm := by
  rcases CkpModuleRun_heap Vm Arguments with hH | ⟨Module, Object, _, hH | hH⟩
  · exact CkSinglePending_same Vm _ h hH
  · exact CkSinglePending_set Vm _ Module _ h hH (Or.inr rfl)
  · exact CkSinglePending_set Vm _ Module _ h hH (Or.inl rfl)

/-- The heap after the second half of the source path: as before, or with the
fiber slot of the module written. -/
theorem CkpModuleLoadSourceCompile_heap (Env : CkEnvironment) (Vm : CkVm) (Module : Nat)
    (Source : String) :
    (CkpModuleLoadSourceCompile Env Vm Module Source).finalVm.Heap = Vm.Heap ∨
    ∃ Object Fiber, Vm.Heap[Module]? = some Object ∧
      (CkpModuleLoadSourceCompile Env Vm Module Source).finalVm.Heap
        = Vm.Heap.set Module { Object with Fiber := Fiber } := by
  unfold CkpModuleLoadSourceCompile CkpCompile
  cases hF : Env.Compile Vm Module Source with
  | none => left; rfl
  | some Function =>
    simp only []
    obtain ⟨R1, hcl | hcl⟩ := CkpClosureCreate_cases
      { Vm with CompileRequests := Vm.CompileRequests ++ [(Module, Source)] } Function
    · left; rw [hcl]; rfl
    · rw [hcl]
      simp only []
      obtain ⟨R2, hfb | hfb⟩ := CkpFiberCreate_cases
        { Vm with Memory := R1,
                  CompileRequests := Vm.CompileRequests ++ [(Module, Source)] }
        (.block Function)
      · rw [hfb]
        cases hM : Vm.Heap[Module]? with
        | none => left; simp [CkVm.storeModule, hM, CkOutcome.finalVm]
        | some Object =>
          right
          exact ⟨Object, none, rfl, by simp [CkVm.storeModule, hM, CkOutcome.finalVm]⟩
      · rw [hfb]
        cases hM : Vm.Heap[Module]? with
        | none => left; simp [CkVm.storeModule, hM, CkOutcome.finalVm]
        | some Object =>
          right
          exact ⟨Object, some Vm.Fibers.length, rfl,
            by simp [CkVm.storeModule, hM, CkOutcome.finalVm]⟩

theorem CkpModuleLoadSource_single_pending (Env : CkEnvironment) (Vm : CkVm)
    (ModuleName Path : CkValue) (Source : String) (h : CkSinglePending Vm)
    (hguard : CkNoEntryRegistered Vm ModuleName) :
    CkSinglePending (CkpModuleLoadSource Env Vm ModuleName Path Source).finalVm := by
  cases hget : CkpModuleGet Vm ModuleName with
  | some Found =>
    have hLS : CkpModuleLoadSource Env Vm ModuleName Path Source
        = CkpModuleLoadSourceCompile Env Vm Found Source := by
      unfold CkpModuleLoadSource
      simp only [hget]
    rw [hLS]
    rcases CkpModuleLoadSourceCompile_heap Env Vm Found Source with hH | ⟨Object, Fiber, hM, hH⟩
    · exact CkSinglePending_same Vm _ h hH
    · exact CkSinglePending_set Vm _ Found _ h hH (Or.inr (hguard Found Object hget hM))
  | none =>
    cases ModuleName with
    | string Name =>
      rcases CkpModuleLoadSource_fresh_cases Env Vm Name Path Source hget with
        ⟨Rest, Garbage, hG, hl⟩ | ⟨Rest, hl⟩ | ⟨Rest, Variables, hl⟩ |
        ⟨Rest, Variables, Function, Fiber, Fibers, _, _, hl⟩
      · rw [hl]
        exact CkSinglePending_append Vm _ Garbage h rfl (fun Object hO => Or.inl (hG Object hO).1)
      · rw [hl]
        exact CkSinglePending_append Vm _ _ h rfl (by simp [CkZeroModule])
      · rw [hl]
        exact CkSinglePending_append Vm _ _ h rfl (by simp [CkZeroModule])
      · rw [hl]
        exact CkSinglePending_append Vm _ _ h rfl (by simp [CkZeroModule])
    | _ =>
      simp only [CkpModuleLoadSource, hget, CK_AS_STRING, CkOutcome.finalVm]
      exact h

theorem CkpModuleLoadForeign_single_pending (Vm : CkVm) (ModuleName Path : CkValue)
    (Handle : Option Nat) (Entry : Nat) (h : CkSinglePending Vm)
    (hget : CkpModuleGet Vm ModuleName = none) :
    CkSinglePending (CkpModuleLoadForeign Vm ModuleName Path Handle Entry).finalVm := by
  cases ModuleName with
  | string Name =>
    rcases CkpModuleLoadForeign_fresh_cases Vm Name Path Handle Entry hget with
      ⟨Rest, Garbage, hG, hl⟩ | ⟨Rest, hl⟩ | ⟨Rest, Variables, hl⟩ |
      ⟨Rest, Variables, FunctionName, hl⟩
    · rw [hl]
      exact CkSinglePending_append Vm _ Garbage h rfl (fun Object hO => Or.inl (hG Object hO).1)
    · rw [hl]
      exact CkSinglePending_append Vm _ _ h rfl (by simp [CkZeroModule])
    · rw [hl]
      exact CkSinglePending_append Vm _ _ h rfl (by simp [CkZeroModule])
    · rw [hl]
      exact CkSinglePending_append Vm _ _ h rfl (by simp [CkZeroModule])
  | _ =>
    simp only [CkpModuleLoadForeign, hget, CK_AS_STRING, CkOutcome.finalVm]
    exact h

theorem CkpModuleLoadSwitch_single_pending (Env : CkEnvironment) (Vm : CkVm) (Name : String)
    (LoadStatus : CkLoadModuleResult) (hreg : CkpModuleGet Vm (.string Name) = none)
    (h : CkSinglePending Vm) :
    CkSinglePending (CkpModuleLoadSwitch Env Vm (.string Name) Name LoadStatus).finalVm := by
  cases LoadStatus with
  | CkLoadModuleSource Path Text =>
    rcases CkpModuleLoadSwitch_source_cases Env Vm Name Path Text hreg with
      ⟨Rest, Garbage, hG, hl⟩ | ⟨Rest, PathString, hl⟩ | ⟨Rest, Variables, PathString, hl⟩ |
      ⟨Rest, Variables, PathString, Function, Fiber, Fibers, _, _, hl⟩
    · rw [hl]
      exact CkSinglePending_append Vm _ Garbage h
        (by simp [CkOutcome.finalVm, CkpRuntimeError_Heap])
        (fun Object hO => Or.inl (hG Object hO).1)
    · rw [hl]
      exact CkSinglePending_append Vm _ _ h rfl (by simp [CkZeroModule])
    · rw [hl]
      exact CkSinglePending_append Vm _ _ h
        (by simp only [CkOutcome.finalVm, CkpRuntimeError_Heap]; rfl) (by simp [CkZeroModule])
    · rw [hl]
      exact CkSinglePending_append Vm _ _ h rfl (by simp [CkZeroModule])
  | CkLoadModuleForeign Path Handle Entry =>
    rcases CkpModuleLoadSwitch_foreign_cases Env Vm Name Path Handle Entry hreg with
      ⟨Rest, Garbage, hG, hl⟩ | ⟨Rest, PathString, hl⟩ | ⟨Rest, Variables, PathString, hl⟩ |
      ⟨Rest, Variables, PathString, FunctionName, hl⟩
    · rw [hl]
      exact CkSinglePending_append Vm _ Garbage h
        (by simp [CkOutcome.finalVm, CkpModuleLoadForeignFailed_Heap])
        (fun Object hO => Or.inl (hG Object hO).1)
    · rw [hl]
      exact CkSinglePending_append Vm _ _ h rfl (by simp [CkZeroModule])
    · rw [hl]
      exact CkSinglePending_append Vm _ _ h
        (by simp only [CkOutcome.finalVm, CkpModuleLoadForeignFailed_Heap]; rfl)
        (by simp [CkZeroModule])
    · rw [hl]
      exact CkSinglePending_append Vm _ _ h rfl (by simp [CkZeroModule])
  | CkLoadModuleNoMemory =>
    unfold CkpModuleLoadSwitch
    simp only []
    split
    · exact h
    · split
      · exact h
      · split
        · exact CkSinglePending_same Vm _ h (CkpRuntimeError_Heap _ _ _)
        · exact h
  | _ =>
    exact CkSinglePending_same Vm _ h
      (by simp [CkpModuleLoadSwitch, CkOutcome.finalVm, CkpRuntimeError_Heap])

theorem CkpModuleLoad_single_pending (Env : CkEnvironment) (Vm : CkVm) (ModuleName : CkValue)
    (h : CkSinglePending Vm) : CkSinglePending (CkpModuleLoad Env Vm ModuleName).finalVm := by
  cases ModuleName with
  | string Name =>
    cases hreg : CkpModuleGet Vm (.string Name) with
    | some Found =>
      rw [CkpModuleLoad_registered Env Vm Name Found hreg]
      exact h
    | none =>
      cases hcfg : Env.Configuration.LoadModule with
      | none =>
        have hL : CkpModuleLoad Env Vm (.string Name)
            = .ok CkNullValue (CkpRuntimeError Vm "ImportError" "Module load not supported") := by
          unfold CkpModuleLoad
          simp only [CK_AS_STRING_string, hreg, hcfg]
        rw [hL]
        exact CkSinglePending_same Vm _ h (CkpRuntimeError_Heap _ _ _)
      | some LoadModule =>
        rw [CkpModuleLoad_unregistered Env Vm Name LoadModule hreg hcfg]
        have hreg1 : CkpModuleGet { Vm with LoadRequests := Vm.LoadRequests ++ [Name] }
            (.string Name) = none := by
          rw [← hreg]; exact CkpModuleGet_of_Modules_eq _ _ _ rfl
        have key := CkpModuleLoadSwitch_single_pending Env _ Name (LoadModule Vm Name) hreg1
          (CkSinglePending_same Vm { Vm with LoadRequests := Vm.LoadRequests ++ [Name] } h rfl)
        generalize CkpModuleLoadSwitch Env { Vm with LoadRequests := Vm.LoadRequests ++ [Name] }
          (.string Name) Name (LoadModule Vm Name) = Answer at key
        cases Answer with
        | fault Fault Vm2 => exact key
        | ok Exit Vm2 => cases Exit <;> exact key
  | _ =>
    simp only [CkpModuleLoad, CK_AS_STRING, CkOutcome.finalVm]
    exact h

/-! ## Claim about the pending initializer -/

/-- C17 as stated fails.  From the bootstrap machine, the foreign path for
`native` (its precondition holds: the name is not registered) gives module 1 a
pending entry function; the source path for `native` then reuses module 1 and
stores a fiber in it.  In the state reached module 1 holds both a pending
fiber and a pending entry function. -/
theorem CkpModuleLoadSource_on_foreign_module :
    CkBootstrap CkBootVm ∧
    CkpModuleGet CkBootVm (.string "native") = none ∧
    CkForeignLoaded
      = (CkpModuleLoadForeign CkBootVm (.string "native") CkNullValue (some 7) 42).finalVm ∧
    CkpModuleLoadSource (CkHostAnswering .CkLoadModuleNotFound) CkForeignLoaded (.string "native")
        CkNullValue "var x = 1;" = .ok (some 1) CkNativeReloaded ∧
    (∃ Object, CkNativeReloaded.Heap[1]? = some Object ∧ Object.Fiber = some 1 ∧
      Object.EntryFunction = some CkNativeEntry) ∧
    ¬ CkSinglePending CkNativeReloaded :=
  ⟨⟨_, rfl, rfl, rfl, rfl, rfl⟩, rfl, rfl, rfl, ⟨_, rfl, rfl, rfl⟩,
    fun hall =>
      (hall _ (List.getElem?_mem (show CkNativeReloaded.Heap[1]? = some _ from rfl))).elim
        (fun hfiber => Option.noConfusion hfiber) (fun hentry => Option.noConfusion hentry)⟩

/-- C17, amended.  In every state reachable from a bootstrap state by any
sequence of `CkpModuleLoad`, of `CkpModuleLoadSource` on a name whose
registered module, if any, has no pending entry function, of
`CkpModuleLoadForeign` on a name that is not registered, and of `run`, no
module object holds both a pending fiber and a pending entry function. -/
theorem CkReachable_single_pending (Env : CkEnvironment) (Vm : CkVm) (h : CkReachable Env Vm) :
    CkSinglePending Vm := by
  induction h with
  | bootstrap Vm hboot => exact CkBootstrap_single_pending Vm hboot
  | load Vm ModuleName _ ih => exact CkpModuleLoad_single_pending Env Vm ModuleName ih
  | loadSource Vm ModuleName Path Source _ hguard ih =>
    exact CkpModuleLoadSource_single_pending Env Vm ModuleName Path Source ih hguard
  | loadForeign Vm ModuleName Path Handle Entry _ hget ih =>
    exact CkpModuleLoadForeign_single_pending Vm ModuleName Path Handle Entry ih hget
  | run Vm Arguments _ ih => exact CkpModuleRun_single_pending Vm Arguments ih

/-- C17 amended, on the state reached from the bootstrap machine by the
source path for `geo` followed by a `run` of the module. -/
theorem CkReachable_single_pending_witness :
    CkReachable (CkHostAnswering .CkLoadModuleNotFound) CkSourceRunning ∧
    CkSinglePending CkSourceRunning :=
  ⟨CkReachable.run CkSourceLoaded [.object (some 1)]
      (CkReachable.loadSource CkBootVm (.string "geo") (.string "/lib/geo.ck") "var x = 1;"
        (CkReachable.bootstrap CkBootVm ⟨_, rfl, rfl, rfl, rfl, rfl⟩)
        (fun Found _ hget _ =>
          Option.noConfusion (show (none : Option Nat) = some Found from hget))),
    CkReachable_single_pending (CkHostAnswering .CkLoadModuleNotFound) CkSourceRunning
      (CkReachable.run CkSourceLoaded [.object (some 1)]
        (CkReachable.loadSource CkBootVm (.string "geo") (.string "/lib/geo.ck") "var x = 1;"
          (CkReachable.bootstrap CkBootVm ⟨_, rfl, rfl, rfl, rfl, rfl⟩)
          (fun Found _ hget _ =>
            Option.noConfusion (show (none : Option Nat) = some Found from hget))))⟩

end Chalk
